import Mathlib

/-! The file videobuf2-msm-mem: physically contiguous PMEM buffers behind videobuf2.

A shallow embedding of `drivers/media/video/videobuf2-msm-mem.c`.

* A buffer handle (`struct videobuf2_contig_pmem`) is passed by value: every operation
  takes the handle it is given through its pointer argument and returns the handle as the
  operation leaves it.
* Calls into the rest of the kernel (handle storage, the contiguous allocator, the PMEM
  file resolver, the page-table call) are taken from an environment `Env`, and every such
  call is recorded, in order, in a trace of `Event`s.
* `BUG()` / `BUG_ON()` never return: an operation that reaches one yields `none`.
* The target is 32-bit ARM (mach-msm): `int`, `unsigned long`, `uint32_t` and pointers are
  32 bits wide, and are represented by their bit pattern, a natural number below `WORD`.
-/

namespace Vb2Msm

/-! ## Machine words and kernel constants -/

/-- Number of values of a 32-bit word. The source relies on `unsigned long` and `int`
having the same width when it passes `(unsigned long *)&mem->phyaddr`. -/
def WORD : Nat := 2 ^ 32

/-- The constant `PAGE_SHIFT` of the target (4 KiB pages). -/
def PAGE_SHIFT : Nat := 12

/-- The constant `PAGE_SIZE`, that is `1 << PAGE_SHIFT`. -/
def PAGE_SIZE : Nat := 2 ^ PAGE_SHIFT

/-- The constant `SZ_4K`, the alignment asked of the contiguous allocator. -/
def SZ_4K : Nat := 0x1000

/-- The sentinel `MAGIC_PMEM`. -/
def MAGIC_PMEM : Nat := 0x0733ac64

/-- The errno `ENOMEM`. -/
def ENOMEM : Int := 12

/-- The constant `MAX_ERRNO` of `linux/err.h`. -/
def MAX_ERRNO : Nat := 4095

/-- The flag `VM_DONTEXPAND` of `linux/mm.h`. -/
def VM_DONTEXPAND : Nat := 0x00040000

/-- Modelled from the spec: the macro `PAGE_ALIGN` (`linux/mm.h`) is not among the
sources. It rounds its argument up to the page granularity, computed the way the kernel
does, `(addr + PAGE_SIZE - 1) & PAGE_MASK`, in `unsigned long` arithmetic: the sum wraps
at `WORD` and the mask clears the low `PAGE_SHIFT` bits. -/
def PAGE_ALIGN (addr : Nat) : Nat :=
  ((addr + (PAGE_SIZE - 1)) % WORD) / PAGE_SIZE * PAGE_SIZE

/-- Modelled from the spec: the test `IS_ERR` (`linux/err.h`) is not among the sources.
Failure is signalled by a distinguished error value: a pointer is an error pointer when,
read as `unsigned long`, it is at least `(unsigned long)-MAX_ERRNO`. -/
def IS_ERR (ptr : Nat) : Bool :=
  decide (WORD - MAX_ERRNO ≤ ptr)

/-- The value of a 32-bit pattern read as a signed `int` (the cast `(int)x`). -/
def to_int (w : Nat) : Int :=
  if w < WORD / 2 then (w : Int) else (w : Int) - (WORD : Int)

/-- The expression `x >> n` for a signed `int` x given by its bit pattern: the shift is
arithmetic, and the result is given as the bit pattern of the `unsigned long` it is
converted to. -/
def int_shift_right (w n : Nat) : Nat :=
  if w < WORD / 2 then w / 2 ^ n else WORD - 2 ^ (32 - n) + w / 2 ^ n

/-! ## Data model -/

/-- Modelled from the spec: the declaration of `struct videobuf2_contig_pmem`
(`media/videobuf2-msm-mem.h`) is not among the sources. The fields are the ones the source
file reads or writes. `magic`, `y_off`, `cbcr_off` are `u32`; `vaddr`, `file` and
`alloc_ctx` are pointers; `phyaddr` is an `int` and `count` an `unsigned int`, both held as
32-bit patterns; `size` is an `unsigned long`; `is_userptr` and `buffer_type` are `int`s. -/
structure videobuf2_contig_pmem where
  magic : Nat
  vaddr : Nat
  phyaddr : Nat
  size : Nat
  is_userptr : Int
  y_off : Nat
  cbcr_off : Nat
  buffer_type : Int
  file : Nat
  count : Nat
  alloc_ctx : Nat
deriving DecidableEq, Repr

/-- The storage `kzalloc` hands out: every field zero. -/
def kzalloc_zeroed : videobuf2_contig_pmem :=
  { magic := 0, vaddr := 0, phyaddr := 0, size := 0, is_userptr := 0, y_off := 0,
    cbcr_off := 0, buffer_type := 0, file := 0, count := 0, alloc_ctx := 0 }

/-- The operation tables a mapping region can point to; this file installs one. -/
inductive vm_operations_struct where
  | videobuf2_vm_ops
deriving DecidableEq, Repr

/-- The fields of `struct vm_area_struct` the source touches. `vm_private_data` is a
pointer (0 is NULL). -/
structure vm_area_struct where
  vm_start : Nat
  vm_end : Nat
  vm_page_prot : Nat
  vm_flags : Nat
  vm_ops : Option vm_operations_struct
  vm_private_data : Nat
deriving DecidableEq, Repr

/-- What `get_pmem_file` hands back: its return code and, when it stored through its four
out-pointers, the values stored (`out = none` when it left them untouched). -/
structure pmem_out where
  start : Nat
  vstart : Nat
  len : Nat
  filp : Nat
deriving DecidableEq, Repr

/-- The reply of one `get_pmem_file` call. -/
structure pmem_reply where
  rc : Int
  out : Option pmem_out
deriving DecidableEq, Repr

/-- A call that leaves this file, with its arguments (and, for the allocator, the value
it returned). -/
inductive Event where
  | kzalloc (ok : Bool)
  | kfree
  | allocate_contiguous_ebi_nomap (size align ret : Nat)
  | free_contiguous_memory_by_paddr (paddr : Nat)
  | get_pmem_file (fd : Int)
  | put_pmem_file (file : Nat)
  | remap_pfn_range (addr pfn size prot : Nat)
deriving DecidableEq, Repr

/-- The collaborators of one call: whether `kzalloc` finds storage, what the contiguous
allocator returns for `(size, align)`, what `get_pmem_file` replies for a descriptor, what
`remap_pfn_range` returns for `(addr, pfn, size, prot)`, and `pgprot_noncached`. -/
structure Env where
  kzalloc : Bool
  allocate_contiguous_ebi_nomap : Nat → Nat → Nat
  get_pmem_file : Int → pmem_reply
  remap_pfn_range : Nat → Nat → Nat → Nat → Int
  pgprot_noncached : Nat → Nat

/-! ## The operations -/

/-- The function `msm_mem_allocate`: the allocator's `unsigned long` result, kept as an
`int32_t` (same bit pattern), with the call it made. -/
def msm_mem_allocate (env : Env) (size : Nat) : Nat × List Event :=
  let phyaddr := env.allocate_contiguous_ebi_nomap size SZ_4K % WORD
  (phyaddr, [Event.allocate_contiguous_ebi_nomap size SZ_4K phyaddr])

/-- The function `msm_mem_free`: frees by physical address and returns 0. -/
def msm_mem_free (phyaddr : Nat) : Int × List Event :=
  (0, [Event.free_contiguous_memory_by_paddr phyaddr])

/-- The callback `videobuf2_vm_close`; `mem` is what `vma->vm_private_data` points to.
`mem->count--` on an `unsigned int`: one less, and from 0 the largest 32-bit value (that
is `(count + WORD - 1) % WORD` for a count below `WORD`). -/
def videobuf2_vm_close (_vma : vm_area_struct) (mem : videobuf2_contig_pmem) :
    videobuf2_contig_pmem :=
  { mem with count := if mem.count = 0 then WORD - 1 else mem.count - 1 }

/-- The callback `videobuf2_vm_open`; `mem` is what `vma->vm_private_data` points to. -/
def videobuf2_vm_open (_vma : vm_area_struct) (mem : videobuf2_contig_pmem) :
    videobuf2_contig_pmem :=
  { mem with count := (mem.count + 1) % WORD }

/-- Result of `msm_vb2_mem_ops_alloc` and `msm_vb2_mem_ops_get_userptr`: the handle, or
the errno carried by the `ERR_PTR`, and the calls made. -/
structure alloc_result where
  ret : Except Int videobuf2_contig_pmem
  trace : List Event

/-- The function `msm_vb2_mem_ops_alloc`. -/
def msm_vb2_mem_ops_alloc (env : Env) (alloc_ctx size : Nat) : alloc_result :=
  if env.kzalloc = false then
    { ret := .error (-ENOMEM), trace := [Event.kzalloc false] }
  else
    let mem := kzalloc_zeroed
    let mem := { mem with magic := MAGIC_PMEM }
    let mem := { mem with size := PAGE_ALIGN size }
    let mem := { mem with alloc_ctx := alloc_ctx }
    let mem := { mem with is_userptr := 0 }
    let a := msm_mem_allocate env mem.size
    let mem := { mem with phyaddr := a.1 }
    if IS_ERR mem.phyaddr then
      { ret := .error (-ENOMEM), trace := Event.kzalloc true :: a.2 ++ [Event.kfree] }
    else
      { ret := .ok mem, trace := Event.kzalloc true :: a.2 }

/-- The function `msm_vb2_mem_ops_put`: the calls it makes; the handle is gone after. -/
def msm_vb2_mem_ops_put (mem : videobuf2_contig_pmem) : List Event :=
  (if mem.is_userptr = 0 then (msm_mem_free mem.phyaddr).2 else []) ++ [Event.kfree]

/-- The function `videobuf2_pmem_contig_mmap_get`. -/
def videobuf2_pmem_contig_mmap_get (mem : videobuf2_contig_pmem)
    (yoffset cbcroffset : Nat) (path : Int) : Int × videobuf2_contig_pmem :=
  let mem := { mem with y_off := yoffset }
  let mem := { mem with cbcr_off := cbcroffset }
  let mem := { mem with buffer_type := path }
  (0, mem)

/-- Result of an operation on a handle: return code, the handle after, the calls made. -/
structure op_result where
  rc : Int
  mem : videobuf2_contig_pmem
  trace : List Event
deriving DecidableEq, Repr

/-- What the stores of `get_pmem_file` through `&mem->phyaddr` and `&mem->file` do to the
handle: nothing when the resolver left its out-pointers untouched. -/
def get_pmem_file_stores (mem : videobuf2_contig_pmem) : Option pmem_out → videobuf2_contig_pmem
  | none => mem
  | some o => { mem with phyaddr := o.start % WORD, file := o.filp }

/-- The function `videobuf2_pmem_contig_user_get`. The resolver is handed pointers to
`mem->phyaddr` and `mem->file`, so whatever it stores lands in the handle before the
return code is looked at; `kvstart` and `len` are locals that are never read. -/
def videobuf2_pmem_contig_user_get (env : Env) (mem : videobuf2_contig_pmem)
    (yoffset cbcroffset addr_offset : Nat) (path : Int) : op_result :=
  if mem.phyaddr ≠ 0 then
    { rc := 0, mem := mem, trace := [] }
  else
    let fd := to_int mem.vaddr
    let reply := env.get_pmem_file fd
    let mem := get_pmem_file_stores mem reply.out
    let rc := reply.rc
    if rc < 0 then
      { rc := rc, mem := mem, trace := [Event.get_pmem_file fd] }
    else
      let mem := { mem with phyaddr := (mem.phyaddr + addr_offset) % WORD }
      let mem := { mem with y_off := yoffset }
      let mem := { mem with cbcr_off := cbcroffset }
      let mem := { mem with buffer_type := path }
      { rc := rc, mem := mem, trace := [Event.get_pmem_file fd] }

/-- The function `videobuf2_pmem_contig_user_put`: the handle after, and the calls. -/
def videobuf2_pmem_contig_user_put (mem : videobuf2_contig_pmem) :
    videobuf2_contig_pmem × List Event :=
  let t := if mem.is_userptr ≠ 0 then [Event.put_pmem_file mem.file] else []
  let mem := { mem with is_userptr := 0 }
  let mem := { mem with phyaddr := 0 }
  let mem := { mem with size := 0 }
  (mem, t)

/-- The function `msm_vb2_mem_ops_get_userptr`; `write` is not used by the source. -/
def msm_vb2_mem_ops_get_userptr (env : Env) (alloc_ctx vaddr size : Nat) (_write : Int) :
    alloc_result :=
  if env.kzalloc = false then
    { ret := .error (-ENOMEM), trace := [Event.kzalloc false] }
  else
    let mem := kzalloc_zeroed
    let mem := { mem with magic := MAGIC_PMEM }
    let mem := { mem with is_userptr := 1 }
    let mem := { mem with vaddr := vaddr }
    let mem := { mem with size := size }
    let mem := { mem with alloc_ctx := alloc_ctx }
    { ret := .ok mem, trace := [Event.kzalloc true] }

/-- The function `msm_vb2_mem_ops_put_userptr`: it only discards the handle storage. -/
def msm_vb2_mem_ops_put_userptr (_mem : videobuf2_contig_pmem) : List Event :=
  [Event.kfree]

/-- The function `msm_vb2_mem_ops_vaddr`. -/
def msm_vb2_mem_ops_vaddr (mem : videobuf2_contig_pmem) : Nat :=
  mem.vaddr

/-- The function `msm_vb2_mem_ops_cookie`: the pointer it is given. -/
def msm_vb2_mem_ops_cookie (buf_priv : Nat) : Nat :=
  buf_priv

/-- The function `msm_vb2_mem_ops_num_users`; `none` is the `BUG()` of `MAGIC_CHECK`. -/
def msm_vb2_mem_ops_num_users (mem : videobuf2_contig_pmem) : Option Nat :=
  if mem.magic ≠ MAGIC_PMEM then none else some mem.count

/-- Result of `msm_vb2_mem_ops_mmap`: return code, handle and region after, calls made. -/
structure mmap_result where
  rc : Int
  mem : videobuf2_contig_pmem
  vma : vm_area_struct
  trace : List Event
deriving DecidableEq, Repr

/-- The function `msm_vb2_mem_ops_mmap`. `buf_priv` is the pointer it is given and `mem`
what it points to; `none` is `BUG_ON(!mem)` or the `BUG()` of `MAGIC_CHECK`. -/
def msm_vb2_mem_ops_mmap (env : Env) (buf_priv : Nat) (mem : videobuf2_contig_pmem)
    (vma : vm_area_struct) : Option mmap_result :=
  if buf_priv = 0 then none
  else if mem.magic ≠ MAGIC_PMEM then none
  else
    let size := (vma.vm_end + WORD - vma.vm_start) % WORD
    let size := if size < mem.size then size else mem.size
    let vma := { vma with vm_page_prot := env.pgprot_noncached vma.vm_page_prot }
    let pfn := int_shift_right mem.phyaddr PAGE_SHIFT
    let retval := env.remap_pfn_range vma.vm_start pfn size vma.vm_page_prot
    let t := [Event.remap_pfn_range vma.vm_start pfn size vma.vm_page_prot]
    if retval ≠ 0 then
      some { rc := -ENOMEM, mem := mem, vma := vma, trace := t }
    else
      let mem := { mem with vaddr := vma.vm_start }
      let vma := { vma with vm_ops := some vm_operations_struct.videobuf2_vm_ops }
      let vma := { vma with vm_flags := vma.vm_flags ||| VM_DONTEXPAND }
      let vma := { vma with vm_private_data := buf_priv }
      let mem := videobuf2_vm_open vma mem
      some { rc := 0, mem := mem, vma := vma, trace := t }

/-- Modelled from the spec: `vb2_plane_cookie` (the videobuf2 core) is not among the
sources. It looks up the opaque cookie for the given plane: the `cookie` operation of the
memory backend applied to the plane's private pointer, NULL past the last plane. A buffer
is given by the private pointers of its planes. -/
def vb2_plane_cookie (vb : List Nat) (plane_no : Nat) : Nat :=
  match vb.get? plane_no with
  | none => 0
  | some mem_priv => msm_vb2_mem_ops_cookie mem_priv

/-- The function `videobuf2_to_pmem_contig`; `deref` reads the handle a non-null pointer
points to, and `none` is `BUG_ON(!mem)` or the `BUG()` of `MAGIC_CHECK`. -/
def videobuf2_to_pmem_contig (deref : Nat → videobuf2_contig_pmem) (vb : List Nat)
    (plane_no : Nat) : Option Nat :=
  let mem := vb2_plane_cookie vb plane_no
  if mem = 0 then none
  else if (deref mem).magic ≠ MAGIC_PMEM then none
  else some (deref mem).phyaddr

/-! ## Resources held according to a trace -/

/-- Effect of one call on the physical ranges held: the allocator hands out a range
unless it returns an error value, and a free gives the range at that address back. -/
def held_step (held : List Nat) : Event → List Nat
  | Event.allocate_contiguous_ebi_nomap _ _ ret => if IS_ERR ret then held else ret :: held
  | Event.free_contiguous_memory_by_paddr paddr => held.erase paddr
  | _ => held

/-- The physical ranges still held after the calls of a trace. -/
def held_ranges (t : List Event) : List Nat :=
  t.foldl held_step []

/-- Effect of one call on the number of live handle storages. -/
def storage_step (n : Nat) : Event → Nat
  | Event.kzalloc true => n + 1
  | Event.kfree => n - 1
  | _ => n

/-- The number of handle storages still live after the calls of a trace. -/
def live_storage (t : List Event) : Nat :=
  t.foldl storage_step 0

/-- The number of calls of the physical allocator's free in a trace. -/
def free_calls (t : List Event) : List Nat :=
  t.filterMap fun e =>
    match e with
    | Event.free_contiguous_memory_by_paddr paddr => some paddr
    | _ => none

/-- The file references released by the calls of a trace, in order. -/
def released_files (t : List Event) : List Nat :=
  t.filterMap fun e =>
    match e with
    | Event.put_pmem_file f => some f
    | _ => none

/-- The descriptors the resolver was called with in a trace, in order. -/
def resolver_calls (t : List Event) : List Int :=
  t.filterMap fun e =>
    match e with
    | Event.get_pmem_file fd => some fd
    | _ => none

/-- The lengths handed to the page-table mapping call in a trace, in order. -/
def remap_lengths (t : List Event) : List Nat :=
  t.filterMap fun e =>
    match e with
    | Event.remap_pfn_range _ _ size _ => some size
    | _ => none

/-- The value of the local `size` of `msm_vb2_mem_ops_mmap` when it reaches the page-table
call, for a handle and a region. -/
def mmap_length (mem : videobuf2_contig_pmem) (vma : vm_area_struct) : Nat :=
  if (vma.vm_end + WORD - vma.vm_start) % WORD < mem.size
    then (vma.vm_end + WORD - vma.vm_start) % WORD else mem.size

/-- The return value of the page-table call `msm_vb2_mem_ops_mmap` makes for a handle and
a region. -/
def mmap_remap_retval (env : Env) (mem : videobuf2_contig_pmem) (vma : vm_area_struct) : Int :=
  env.remap_pfn_range vma.vm_start (int_shift_right mem.phyaddr PAGE_SHIFT)
    (mmap_length mem vma) (env.pgprot_noncached vma.vm_page_prot)

/-- The sizes asked of the physical allocator by the calls of a trace, in order. -/
def allocate_calls (t : List Event) : List Nat :=
  t.filterMap fun e =>
    match e with
    | Event.allocate_contiguous_ebi_nomap size _ _ => some size
    | _ => none

/-! ## Sequences of operations on one handle -/

/-- The public operations on an existing handle, each with the collaborators and the
arguments of that call. -/
inductive Op where
  | set_layout (yoffset cbcroffset : Nat) (path : Int)
  | bind (env : Env) (yoffset cbcroffset addr_offset : Nat) (path : Int)
  | release_user_memory
  | mmap (env : Env) (buf_priv : Nat) (vma : vm_area_struct)
  | vm_open (vma : vm_area_struct)
  | vm_close (vma : vm_area_struct)

/-- One operation on a handle: the handle after and the calls made, `none` when the
operation ends in `BUG()`. -/
def apply_op (mem : videobuf2_contig_pmem) : Op → Option (videobuf2_contig_pmem × List Event)
  | Op.set_layout y c path => some ((videobuf2_pmem_contig_mmap_get mem y c path).2, [])
  | Op.bind env y c off path =>
      let r := videobuf2_pmem_contig_user_get env mem y c off path
      some (r.mem, r.trace)
  | Op.release_user_memory => some (videobuf2_pmem_contig_user_put mem)
  | Op.mmap env buf_priv vma =>
      match msm_vb2_mem_ops_mmap env buf_priv mem vma with
      | none => none
      | some r => some (r.mem, r.trace)
  | Op.vm_open vma => some (videobuf2_vm_open vma mem, [])
  | Op.vm_close vma => some (videobuf2_vm_close vma mem, [])

/-- A sequence of operations, run in order on a handle: the handle after the last one and
all the calls made, `none` when one of them ends in `BUG()`. -/
def run_ops : List Op → videobuf2_contig_pmem → Option (videobuf2_contig_pmem × List Event)
  | [], mem => some (mem, [])
  | op :: ops, mem =>
      match apply_op mem op with
      | none => none
      | some (mem1, t1) =>
          match run_ops ops mem1 with
          | none => none
          | some (mem2, t2) => some (mem2, t1 ++ t2)

/-- Whether an operation is `release_user_memory`. -/
def Op.is_release : Op → Bool
  | Op.release_user_memory => true
  | _ => false

/-- Whether an operation belongs to the mapping lifecycle: mmap, open or close. -/
def Op.is_mapping : Op → Bool
  | Op.mmap _ _ _ => true
  | Op.vm_open _ => true
  | Op.vm_close _ => true
  | _ => false

/-- The change an operation makes to the number of open mappings of a handle: one more
for an mmap whose page-table call returns 0 and for an open, one less for a close. -/
def Op.count_delta (mem : videobuf2_contig_pmem) : Op → Int
  | Op.mmap env _ vma => if mmap_remap_retval env mem vma = 0 then 1 else 0
  | Op.vm_open _ => 1
  | Op.vm_close _ => -1
  | _ => 0

/-- The number of successful mmaps plus opens minus closes over a sequence of operations
run on a handle, counted in unbounded integers. -/
def net_mappings : List Op → videobuf2_contig_pmem → Int
  | [], _ => 0
  | op :: ops, mem =>
      match apply_op mem op with
      | none => 0
      | some (mem1, _) => Op.count_delta mem op + net_mappings ops mem1

/-! ## Concrete collaborators used in the worked examples -/

/-- Collaborators that all succeed: storage is found, the allocator returns `paddr`, the
resolver stores `out` and returns 0, the page-table call returns 0. -/
def env_ok (paddr : Nat) (out : pmem_out) : Env :=
  { kzalloc := true
    allocate_contiguous_ebi_nomap := fun _ _ => paddr
    get_pmem_file := fun _ => { rc := 0, out := some out }
    remap_pfn_range := fun _ _ _ _ => 0
    pgprot_noncached := fun p => p }

/-- Collaborators whose resolver and page-table call fail with `e`, the resolver leaving
its out-pointers untouched, and whose allocator returns `paddr`. -/
def env_fail (paddr : Nat) (e : Int) : Env :=
  { kzalloc := true
    allocate_contiguous_ebi_nomap := fun _ _ => paddr
    get_pmem_file := fun _ => { rc := e, out := none }
    remap_pfn_range := fun _ _ _ _ => e
    pgprot_noncached := fun p => p }

/-- A resolver reply used in the examples: physical base 0x80000000, file reference 7. -/
def out_example : pmem_out :=
  { start := 0x80000000, vstart := 0, len := 4096, filp := 7 }

/-! ## Lemmas on the page rounding and on the operations -/

theorem PAGE_ALIGN_eq (S : Nat) (h : S ≤ WORD - PAGE_SIZE) :
    PAGE_ALIGN S = (S + 4095) / 4096 * 4096 := by
  have hS : S ≤ 4294963200 := by
    have : WORD - PAGE_SIZE = 4294963200 := by decide
    omega
  have h1 : (S + 4095) % 4294967296 = S + 4095 := Nat.mod_eq_of_lt (by omega)
  show ((S + (2 ^ 12 - 1)) % 2 ^ 32) / 2 ^ 12 * 2 ^ 12 = _
  norm_num
  rw [h1]

theorem PAGE_ALIGN_round_up (S : Nat) (h : S ≤ WORD - PAGE_SIZE) :
    PAGE_SIZE ∣ PAGE_ALIGN S ∧ S ≤ PAGE_ALIGN S ∧ PAGE_ALIGN S < S + PAGE_SIZE := by
  rw [PAGE_ALIGN_eq S h]
  have hp : PAGE_SIZE = 4096 := by decide
  rw [hp]
  refine ⟨Nat.dvd_mul_left _ _, ?_, ?_⟩ <;> omega

/-- What `msm_vb2_mem_ops_alloc` does, by cases on whether storage is found and on the
error test of the allocator's return value. -/
theorem msm_vb2_mem_ops_alloc_cases (env : Env) (alloc_ctx S : Nat) :
    (env.kzalloc = false ∧
      msm_vb2_mem_ops_alloc env alloc_ctx S
        = { ret := .error (-ENOMEM), trace := [Event.kzalloc false] }) ∨
    (env.kzalloc = true ∧
      IS_ERR (env.allocate_contiguous_ebi_nomap (PAGE_ALIGN S) SZ_4K % WORD) = true ∧
      msm_vb2_mem_ops_alloc env alloc_ctx S
        = { ret := .error (-ENOMEM),
            trace := [Event.kzalloc true,
              Event.allocate_contiguous_ebi_nomap (PAGE_ALIGN S) SZ_4K
                (env.allocate_contiguous_ebi_nomap (PAGE_ALIGN S) SZ_4K % WORD),
              Event.kfree] }) ∨
    (env.kzalloc = true ∧
      IS_ERR (env.allocate_contiguous_ebi_nomap (PAGE_ALIGN S) SZ_4K % WORD) = false ∧
      msm_vb2_mem_ops_alloc env alloc_ctx S
        = { ret := .ok { kzalloc_zeroed with
                    magic := MAGIC_PMEM, size := PAGE_ALIGN S, alloc_ctx := alloc_ctx,
                    is_userptr := 0,
                    phyaddr := env.allocate_contiguous_ebi_nomap (PAGE_ALIGN S) SZ_4K % WORD },
            trace := [Event.kzalloc true,
              Event.allocate_contiguous_ebi_nomap (PAGE_ALIGN S) SZ_4K
                (env.allocate_contiguous_ebi_nomap (PAGE_ALIGN S) SZ_4K % WORD)] }) := by
  unfold msm_vb2_mem_ops_alloc
  cases hk : env.kzalloc
  · simp
  · cases he : IS_ERR (env.allocate_contiguous_ebi_nomap (PAGE_ALIGN S) SZ_4K % WORD)
    · simp [msm_mem_allocate, he]
    · simp [msm_mem_allocate, he]

/-- What `msm_vb2_mem_ops_mmap` does when it returns: the one page-table call it makes,
and either the failure return with the handle untouched or the success return with
`vaddr` recorded and `count` incremented. -/
theorem msm_vb2_mem_ops_mmap_cases (env : Env) (buf_priv : Nat) (mem : videobuf2_contig_pmem)
    (vma : vm_area_struct) (r : mmap_result)
    (h : msm_vb2_mem_ops_mmap env buf_priv mem vma = some r) :
    buf_priv ≠ 0 ∧ mem.magic = MAGIC_PMEM ∧
    r.trace = [Event.remap_pfn_range vma.vm_start (int_shift_right mem.phyaddr PAGE_SHIFT)
      (if (vma.vm_end + WORD - vma.vm_start) % WORD < mem.size
        then (vma.vm_end + WORD - vma.vm_start) % WORD else mem.size)
      (env.pgprot_noncached vma.vm_page_prot)] ∧
    ((env.remap_pfn_range vma.vm_start (int_shift_right mem.phyaddr PAGE_SHIFT)
        (if (vma.vm_end + WORD - vma.vm_start) % WORD < mem.size
          then (vma.vm_end + WORD - vma.vm_start) % WORD else mem.size)
        (env.pgprot_noncached vma.vm_page_prot) ≠ 0 ∧
      r.rc = -ENOMEM ∧ r.mem = mem) ∨
     (env.remap_pfn_range vma.vm_start (int_shift_right mem.phyaddr PAGE_SHIFT)
        (if (vma.vm_end + WORD - vma.vm_start) % WORD < mem.size
          then (vma.vm_end + WORD - vma.vm_start) % WORD else mem.size)
        (env.pgprot_noncached vma.vm_page_prot) = 0 ∧
      r.rc = 0 ∧
      r.mem = { mem with vaddr := vma.vm_start, count := (mem.count + 1) % WORD })) := by
  unfold msm_vb2_mem_ops_mmap at h
  by_cases hb : buf_priv = 0
  · rw [if_pos hb] at h
    cases h
  · by_cases hm : mem.magic = MAGIC_PMEM
    · rw [if_neg hb, if_neg (not_not.mpr hm)] at h
      dsimp only at h
      by_cases hrv : env.remap_pfn_range vma.vm_start (int_shift_right mem.phyaddr PAGE_SHIFT)
          (if (vma.vm_end + WORD - vma.vm_start) % WORD < mem.size
            then (vma.vm_end + WORD - vma.vm_start) % WORD else mem.size)
          (env.pgprot_noncached vma.vm_page_prot) = 0
      · rw [if_neg (not_not.mpr hrv)] at h
        injection h with h
        subst h
        exact ⟨hb, hm, rfl, Or.inr ⟨hrv, rfl, rfl⟩⟩
      · rw [if_pos hrv] at h
        injection h with h
        subst h
        exact ⟨hb, hm, rfl, Or.inl ⟨hrv, rfl, rfl⟩⟩
    · rw [if_neg hb, if_pos hm] at h
      cases h

/-- On a handle whose `phyaddr` is non-zero, `videobuf2_pmem_contig_user_get` returns 0
at once. -/
theorem videobuf2_pmem_contig_user_get_bound (env : Env) (mem : videobuf2_contig_pmem)
    (y c off : Nat) (path : Int) (hp : mem.phyaddr ≠ 0) :
    videobuf2_pmem_contig_user_get env mem y c off path
      = { rc := 0, mem := mem, trace := [] } := by
  unfold videobuf2_pmem_contig_user_get
  rw [if_pos hp]

/-- On an unbound handle, when the resolver returns a negative code,
`videobuf2_pmem_contig_user_get` returns it after the resolver's stores. -/
theorem videobuf2_pmem_contig_user_get_fail (env : Env) (mem : videobuf2_contig_pmem)
    (y c off : Nat) (path : Int) (hp : mem.phyaddr = 0)
    (hrc : (env.get_pmem_file (to_int mem.vaddr)).rc < 0) :
    videobuf2_pmem_contig_user_get env mem y c off path
      = { rc := (env.get_pmem_file (to_int mem.vaddr)).rc,
          mem := get_pmem_file_stores mem (env.get_pmem_file (to_int mem.vaddr)).out,
          trace := [Event.get_pmem_file (to_int mem.vaddr)] } := by
  unfold videobuf2_pmem_contig_user_get
  rw [if_neg (not_not.mpr hp)]
  dsimp only
  rw [if_pos hrc]

/-- On an unbound handle, when the resolver returns a non-negative code,
`videobuf2_pmem_contig_user_get` adds the offset and records the layout. -/
theorem videobuf2_pmem_contig_user_get_ok (env : Env) (mem : videobuf2_contig_pmem)
    (y c off : Nat) (path : Int) (hp : mem.phyaddr = 0)
    (hrc : ¬ (env.get_pmem_file (to_int mem.vaddr)).rc < 0) :
    videobuf2_pmem_contig_user_get env mem y c off path
      = { rc := (env.get_pmem_file (to_int mem.vaddr)).rc,
          mem := { get_pmem_file_stores mem (env.get_pmem_file (to_int mem.vaddr)).out with
            phyaddr := ((get_pmem_file_stores mem
              (env.get_pmem_file (to_int mem.vaddr)).out).phyaddr + off) % WORD,
            y_off := y, cbcr_off := c, buffer_type := path },
          trace := [Event.get_pmem_file (to_int mem.vaddr)] } := by
  unfold videobuf2_pmem_contig_user_get
  rw [if_neg (not_not.mpr hp)]
  dsimp only
  rw [if_neg hrc]

theorem get_pmem_file_stores_is_userptr (mem : videobuf2_contig_pmem) (o : Option pmem_out) :
    (get_pmem_file_stores mem o).is_userptr = mem.is_userptr := by
  cases o <;> rfl

/-- The function `videobuf2_pmem_contig_user_get` never calls the allocator's free and
never changes `is_userptr`. -/
theorem videobuf2_pmem_contig_user_get_frame (env : Env) (mem : videobuf2_contig_pmem)
    (y c off : Nat) (path : Int) :
    free_calls (videobuf2_pmem_contig_user_get env mem y c off path).trace = [] ∧
    (videobuf2_pmem_contig_user_get env mem y c off path).mem.is_userptr
      = mem.is_userptr := by
  by_cases hp : mem.phyaddr = 0
  · by_cases hrc : (env.get_pmem_file (to_int mem.vaddr)).rc < 0
    · rw [videobuf2_pmem_contig_user_get_fail env mem y c off path hp hrc]
      exact ⟨rfl, get_pmem_file_stores_is_userptr _ _⟩
    · rw [videobuf2_pmem_contig_user_get_ok env mem y c off path hp hrc]
      exact ⟨rfl, get_pmem_file_stores_is_userptr _ _⟩
  · rw [videobuf2_pmem_contig_user_get_bound env mem y c off path hp]
    exact ⟨rfl, rfl⟩

/-- No public operation on a handle calls the physical allocator's free, and none makes
a zero `is_userptr` non-zero. -/
theorem apply_op_kernel_owned (mem m : videobuf2_contig_pmem) (op : Op) (t : List Event)
    (h : apply_op mem op = some (m, t)) (hu : mem.is_userptr = 0) :
    free_calls t = [] ∧ m.is_userptr = 0 := by
  cases op with
  | set_layout y c path =>
      injection h with h
      injection h with h1 h2
      subst h1 h2
      exact ⟨rfl, hu⟩
  | bind env y c off path =>
      injection h with h
      injection h with h1 h2
      subst h1 h2
      have := videobuf2_pmem_contig_user_get_frame env mem y c off path
      exact ⟨this.1, this.2.trans hu⟩
  | release_user_memory =>
      injection h with h
      have h1 : m = (videobuf2_pmem_contig_user_put mem).1 := by rw [h]
      have h2 : t = (videobuf2_pmem_contig_user_put mem).2 := by rw [h]
      subst h1 h2
      refine ⟨?_, rfl⟩
      show free_calls (if mem.is_userptr ≠ 0 then [Event.put_pmem_file mem.file] else []) = []
      rw [if_neg (not_not.mpr hu)]
      rfl
  | mmap env buf_priv vma =>
      cases hr : msm_vb2_mem_ops_mmap env buf_priv mem vma with
      | none =>
          simp only [apply_op, hr] at h
          cases h
      | some r =>
          simp only [apply_op, hr] at h
          injection h with h
          injection h with h1 h2
          subst h1 h2
          have hc := msm_vb2_mem_ops_mmap_cases env buf_priv mem vma r hr
          refine ⟨by rw [hc.2.2.1]; rfl, ?_⟩
          rcases hc.2.2.2 with ⟨-, -, e⟩ | ⟨-, -, e⟩
          · rw [e]; exact hu
          · rw [e]; exact hu
  | vm_open vma =>
      injection h with h
      injection h with h1 h2
      subst h1 h2
      exact ⟨rfl, hu⟩
  | vm_close vma =>
      injection h with h
      injection h with h1 h2
      subst h1 h2
      refine ⟨rfl, ?_⟩
      dsimp only [videobuf2_vm_close]
      exact hu

/-- An operation other than `release_user_memory` keeps a non-zero `phyaddr`. -/
theorem apply_op_phyaddr (mem m : videobuf2_contig_pmem) (op : Op) (t : List Event)
    (h : apply_op mem op = some (m, t)) (hrel : op.is_release = false)
    (hp : mem.phyaddr ≠ 0) : m.phyaddr = mem.phyaddr := by
  cases op with
  | set_layout y c path =>
      injection h with h
      injection h with h1 h2
      subst h1 h2
      rfl
  | bind env y c off path =>
      injection h with h
      injection h with h1 h2
      subst h1 h2
      rw [videobuf2_pmem_contig_user_get_bound env mem y c off path hp]
  | release_user_memory => cases hrel
  | mmap env buf_priv vma =>
      cases hr : msm_vb2_mem_ops_mmap env buf_priv mem vma with
      | none =>
          simp only [apply_op, hr] at h
          cases h
      | some r =>
          simp only [apply_op, hr] at h
          injection h with h
          injection h with h1 h2
          subst h1 h2
          rcases (msm_vb2_mem_ops_mmap_cases env buf_priv mem vma r hr).2.2.2 with
            ⟨-, -, e⟩ | ⟨-, -, e⟩
          · rw [e]
          · rw [e]
  | vm_open vma =>
      injection h with h
      injection h with h1 h2
      subst h1 h2
      rfl
  | vm_close vma =>
      injection h with h
      injection h with h1 h2
      subst h1 h2
      dsimp only [videobuf2_vm_close]

/-- Unfolding of `run_ops` on a non-empty sequence that runs to its end. -/
theorem run_ops_cons (op : Op) (ops : List Op) (mem m : videobuf2_contig_pmem)
    (t : List Event) (h : run_ops (op :: ops) mem = some (m, t)) :
    ∃ m1 t1 t2, apply_op mem op = some (m1, t1) ∧ run_ops ops m1 = some (m, t2) ∧
      t = t1 ++ t2 := by
  simp only [run_ops] at h
  cases h1 : apply_op mem op with
  | none => simp [h1] at h
  | some p1 =>
      obtain ⟨m1, t1⟩ := p1
      simp only [h1] at h
      cases h2 : run_ops ops m1 with
      | none => simp [h2] at h
      | some p2 =>
          obtain ⟨m2, t2⟩ := p2
          simp only [h2, Option.some.injEq, Prod.mk.injEq] at h
          exact ⟨m1, t1, t2, rfl, by rw [h2, h.1], h.2.symm⟩

theorem free_calls_append (t1 t2 : List Event) :
    free_calls (t1 ++ t2) = free_calls t1 ++ free_calls t2 := by
  simp [free_calls, List.filterMap_append]

/-- A sequence of public operations never calls the physical allocator's free, and keeps
`is_userptr` at 0. -/
theorem run_ops_kernel_owned (ops : List Op) (mem m : videobuf2_contig_pmem) (t : List Event)
    (h : run_ops ops mem = some (m, t)) (hu : mem.is_userptr = 0) :
    free_calls t = [] ∧ m.is_userptr = 0 := by
  induction ops generalizing mem t with
  | nil =>
      simp only [run_ops, Option.some.injEq, Prod.mk.injEq] at h
      rw [← h.1, ← h.2]
      exact ⟨rfl, hu⟩
  | cons op ops ih =>
      obtain ⟨m1, t1, t2, h1, h2, ht⟩ := run_ops_cons op ops mem m t h
      have h3 := apply_op_kernel_owned mem m1 op t1 h1 hu
      have := ih m1 t2 h2 h3.2
      rw [ht, free_calls_append, h3.1, this.1]
      exact ⟨rfl, this.2⟩

/-- A sequence of public operations without `release_user_memory` keeps a non-zero
`phyaddr`. -/
theorem run_ops_phyaddr (ops : List Op) (mem m : videobuf2_contig_pmem) (t : List Event)
    (h : run_ops ops mem = some (m, t)) (hrel : ∀ op ∈ ops, op.is_release = false)
    (hp : mem.phyaddr ≠ 0) : m.phyaddr = mem.phyaddr := by
  induction ops generalizing mem t with
  | nil =>
      simp only [run_ops, Option.some.injEq, Prod.mk.injEq] at h
      rw [← h.1]
  | cons op ops ih =>
      obtain ⟨m1, t1, t2, h1, h2, -⟩ := run_ops_cons op ops mem m t h
      have e1 := apply_op_phyaddr mem m1 op t1 h1 (hrel op (List.mem_cons_self _ _)) hp
      have := ih m1 t2 h2 (fun o ho => hrel o (List.mem_cons_of_mem _ ho)) (by rw [e1]; exact hp)
      rw [this, e1]

/-- On a valid handle, when the page-table call returns 0, `msm_vb2_mem_ops_mmap` returns
0 with `vaddr` recorded, the callbacks installed and `count` incremented. -/
theorem msm_vb2_mem_ops_mmap_success (env : Env) (buf_priv : Nat)
    (mem : videobuf2_contig_pmem) (vma : vm_area_struct) (hb : buf_priv ≠ 0)
    (hm : mem.magic = MAGIC_PMEM) (hrv : mmap_remap_retval env mem vma = 0) :
    msm_vb2_mem_ops_mmap env buf_priv mem vma
      = some { rc := 0,
               mem := { mem with vaddr := vma.vm_start, count := (mem.count + 1) % WORD },
               vma := { vma with
                 vm_page_prot := env.pgprot_noncached vma.vm_page_prot,
                 vm_ops := some vm_operations_struct.videobuf2_vm_ops,
                 vm_flags := vma.vm_flags ||| VM_DONTEXPAND,
                 vm_private_data := buf_priv },
               trace := [Event.remap_pfn_range vma.vm_start
                 (int_shift_right mem.phyaddr PAGE_SHIFT) (mmap_length mem vma)
                 (env.pgprot_noncached vma.vm_page_prot)] } := by
  unfold msm_vb2_mem_ops_mmap
  rw [if_neg hb, if_neg (not_not.mpr hm)]
  dsimp only
  unfold mmap_remap_retval mmap_length at hrv
  rw [if_neg (not_not.mpr hrv)]
  rfl

/-- On a valid handle, when the page-table call returns a non-zero code,
`msm_vb2_mem_ops_mmap` returns `-ENOMEM` and the handle it was given. -/
theorem msm_vb2_mem_ops_mmap_failure (env : Env) (buf_priv : Nat)
    (mem : videobuf2_contig_pmem) (vma : vm_area_struct) (hb : buf_priv ≠ 0)
    (hm : mem.magic = MAGIC_PMEM) (hrv : mmap_remap_retval env mem vma ≠ 0) :
    msm_vb2_mem_ops_mmap env buf_priv mem vma
      = some { rc := -ENOMEM,
               mem := mem,
               vma := { vma with vm_page_prot := env.pgprot_noncached vma.vm_page_prot },
               trace := [Event.remap_pfn_range vma.vm_start
                 (int_shift_right mem.phyaddr PAGE_SHIFT) (mmap_length mem vma)
                 (env.pgprot_noncached vma.vm_page_prot)] } := by
  unfold msm_vb2_mem_ops_mmap
  rw [if_neg hb, if_neg (not_not.mpr hm)]
  dsimp only
  unfold mmap_remap_retval mmap_length at hrv
  rw [if_pos hrv]
  rfl

/-- For a region with `vm_start ≤ vm_end`, the length computed by `msm_vb2_mem_ops_mmap`
is the smaller of the region's size and the handle's size. -/
theorem mmap_length_eq_min (mem : videobuf2_contig_pmem) (vma : vm_area_struct)
    (hse : vma.vm_start ≤ vma.vm_end) (he : vma.vm_end < WORD) :
    mmap_length mem vma = min (vma.vm_end - vma.vm_start) mem.size := by
  have h1 : (vma.vm_end + WORD - vma.vm_start) % WORD = vma.vm_end - vma.vm_start := by
    have e : vma.vm_end + WORD - vma.vm_start = (vma.vm_end - vma.vm_start) + WORD := by
      omega
    rw [e, Nat.add_mod_right]
    exact Nat.mod_eq_of_lt (by omega)
  unfold mmap_length
  rw [h1]
  by_cases hlt : vma.vm_end - vma.vm_start < mem.size
  · rw [if_pos hlt, Nat.min_eq_left (Nat.le_of_lt hlt)]
  · rw [if_neg hlt, Nat.min_eq_right (Nat.le_of_not_lt hlt)]

/-- What `msm_vb2_mem_ops_get_userptr` does, by cases on whether storage is found. -/
theorem msm_vb2_mem_ops_get_userptr_cases (env : Env) (alloc_ctx vaddr size : Nat)
    (w : Int) :
    (env.kzalloc = false ∧
      msm_vb2_mem_ops_get_userptr env alloc_ctx vaddr size w
        = { ret := .error (-ENOMEM), trace := [Event.kzalloc false] }) ∨
    (env.kzalloc = true ∧
      msm_vb2_mem_ops_get_userptr env alloc_ctx vaddr size w
        = { ret := .ok { kzalloc_zeroed with
                    magic := MAGIC_PMEM, is_userptr := 1, vaddr := vaddr, size := size,
                    alloc_ctx := alloc_ctx },
            trace := [Event.kzalloc true] }) := by
  unfold msm_vb2_mem_ops_get_userptr
  cases hk : env.kzalloc
  · simp
  · simp

/-- On an unbound handle, when the resolver returns a non-negative code after storing a
base and a file reference, `videobuf2_pmem_contig_user_get` binds the handle. -/
theorem videobuf2_pmem_contig_user_get_resolved (env : Env) (mem : videobuf2_contig_pmem)
    (y c off : Nat) (path : Int) (o : pmem_out) (rc : Int) (hp : mem.phyaddr = 0)
    (hr : env.get_pmem_file (to_int mem.vaddr) = { rc := rc, out := some o })
    (hrc : 0 ≤ rc) :
    videobuf2_pmem_contig_user_get env mem y c off path
      = { rc := rc,
          mem := { mem with phyaddr := (o.start + off) % WORD, file := o.filp, y_off := y,
                            cbcr_off := c, buffer_type := path },
          trace := [Event.get_pmem_file (to_int mem.vaddr)] } := by
  have hn : ¬ (env.get_pmem_file (to_int mem.vaddr)).rc < 0 := by
    rw [hr]
    exact not_lt.mpr hrc
  rw [videobuf2_pmem_contig_user_get_ok env mem y c off path hp hn, hr]
  have e : (o.start % WORD + off) % WORD = (o.start + off) % WORD := Nat.mod_add_mod _ _ _
  show ({ rc := rc,
          mem := { mem with phyaddr := (o.start % WORD + off) % WORD, file := o.filp,
                            y_off := y, cbcr_off := c, buffer_type := path },
          trace := [Event.get_pmem_file (to_int mem.vaddr)] } : op_result) = _
  rw [e]

/-- The function `videobuf2_pmem_contig_user_get` never calls the file release. -/
theorem videobuf2_pmem_contig_user_get_released (env : Env) (mem : videobuf2_contig_pmem)
    (y c off : Nat) (path : Int) :
    released_files (videobuf2_pmem_contig_user_get env mem y c off path).trace = [] := by
  by_cases hp : mem.phyaddr = 0
  · by_cases hrc : (env.get_pmem_file (to_int mem.vaddr)).rc < 0
    · rw [videobuf2_pmem_contig_user_get_fail env mem y c off path hp hrc]
      rfl
    · rw [videobuf2_pmem_contig_user_get_ok env mem y c off path hp hrc]
      rfl
  · rw [videobuf2_pmem_contig_user_get_bound env mem y c off path hp]
    rfl

/-- An operation other than `release_user_memory` leaves `is_userptr` as it was. -/
theorem apply_op_is_userptr (mem m : videobuf2_contig_pmem) (op : Op) (t : List Event)
    (h : apply_op mem op = some (m, t)) (hrel : op.is_release = false) :
    m.is_userptr = mem.is_userptr := by
  cases op with
  | set_layout y c path =>
      injection h with h
      injection h with h1 h2
      subst h1 h2
      rfl
  | bind env y c off path =>
      injection h with h
      injection h with h1 h2
      subst h1 h2
      exact (videobuf2_pmem_contig_user_get_frame env mem y c off path).2
  | release_user_memory => cases hrel
  | mmap env buf_priv vma =>
      cases hr : msm_vb2_mem_ops_mmap env buf_priv mem vma with
      | none =>
          simp only [apply_op, hr] at h
          cases h
      | some r =>
          simp only [apply_op, hr] at h
          injection h with h
          injection h with h1 h2
          subst h1 h2
          rcases (msm_vb2_mem_ops_mmap_cases env buf_priv mem vma r hr).2.2.2 with
            ⟨-, -, e⟩ | ⟨-, -, e⟩
          · rw [e]
          · rw [e]
  | vm_open vma =>
      injection h with h
      injection h with h1 h2
      subst h1 h2
      rfl
  | vm_close vma =>
      injection h with h
      injection h with h1 h2
      subst h1 h2
      rfl

/-- The operation `release_user_memory` leaves `is_userptr` at 0. -/
theorem apply_op_release_is_userptr (mem m : videobuf2_contig_pmem) (op : Op)
    (t : List Event) (h : apply_op mem op = some (m, t)) (hrel : op.is_release = true) :
    m.is_userptr = 0 := by
  cases op with
  | release_user_memory =>
      injection h with h
      have h1 : m = (videobuf2_pmem_contig_user_put mem).1 := by rw [h]
      rw [h1]
      rfl
  | set_layout y c path => cases hrel
  | bind env y c off path => cases hrel
  | mmap env buf_priv vma => cases hrel
  | vm_open vma => cases hrel
  | vm_close vma => cases hrel

/-- A sequence of operations without `release_user_memory` leaves `is_userptr` as it
was. -/
theorem run_ops_is_userptr (ops : List Op) (mem m : videobuf2_contig_pmem) (t : List Event)
    (h : run_ops ops mem = some (m, t)) (hrel : ∀ op ∈ ops, op.is_release = false) :
    m.is_userptr = mem.is_userptr := by
  induction ops generalizing mem t with
  | nil =>
      simp only [run_ops, Option.some.injEq, Prod.mk.injEq] at h
      rw [← h.1]
  | cons op ops ih =>
      obtain ⟨m1, t1, t2, h1, h2, -⟩ := run_ops_cons op ops mem m t h
      have e1 := apply_op_is_userptr mem m1 op t1 h1 (hrel op (List.mem_cons_self _ _))
      rw [ih m1 t2 h2 (fun o ho => hrel o (List.mem_cons_of_mem _ ho)), e1]

/-- A sequence of operations with a `release_user_memory` among them leaves `is_userptr`
at 0. -/
theorem run_ops_released_is_userptr (ops : List Op) (mem m : videobuf2_contig_pmem)
    (t : List Event) (h : run_ops ops mem = some (m, t))
    (hrel : ∃ op ∈ ops, op.is_release = true) : m.is_userptr = 0 := by
  induction ops generalizing mem t with
  | nil =>
      obtain ⟨op, hop, -⟩ := hrel
      cases hop
  | cons op ops ih =>
      obtain ⟨m1, t1, t2, h1, h2, -⟩ := run_ops_cons op ops mem m t h
      cases hop : op.is_release with
      | true =>
          exact (run_ops_kernel_owned ops m1 m t2 h2
            (apply_op_release_is_userptr mem m1 op t1 h1 hop)).2
      | false =>
          obtain ⟨o, ho, hor⟩ := hrel
          rcases List.mem_cons.mp ho with e | e
          · rw [e, hop] at hor
            cases hor
          · exact ih m1 t2 h2 ⟨o, e, hor⟩

/-- On a handle whose `is_userptr` is 0, no operation calls the file release. -/
theorem apply_op_released_files (mem m : videobuf2_contig_pmem) (op : Op) (t : List Event)
    (h : apply_op mem op = some (m, t)) (hu : mem.is_userptr = 0) :
    released_files t = [] := by
  cases op with
  | set_layout y c path =>
      injection h with h
      injection h with h1 h2
      subst h1 h2
      rfl
  | bind env y c off path =>
      injection h with h
      injection h with h1 h2
      subst h1 h2
      exact videobuf2_pmem_contig_user_get_released env mem y c off path
  | release_user_memory =>
      injection h with h
      have h2 : t = (videobuf2_pmem_contig_user_put mem).2 := by rw [h]
      subst h2
      show released_files
        (if mem.is_userptr ≠ 0 then [Event.put_pmem_file mem.file] else []) = []
      rw [if_neg (not_not.mpr hu)]
      rfl
  | mmap env buf_priv vma =>
      cases hr : msm_vb2_mem_ops_mmap env buf_priv mem vma with
      | none =>
          simp only [apply_op, hr] at h
          cases h
      | some r =>
          simp only [apply_op, hr] at h
          injection h with h
          injection h with h1 h2
          subst h1 h2
          rw [(msm_vb2_mem_ops_mmap_cases env buf_priv mem vma r hr).2.2.1]
          rfl
  | vm_open vma =>
      injection h with h
      injection h with h1 h2
      subst h1 h2
      rfl
  | vm_close vma =>
      injection h with h
      injection h with h1 h2
      subst h1 h2
      rfl

theorem released_files_append (t1 t2 : List Event) :
    released_files (t1 ++ t2) = released_files t1 ++ released_files t2 := by
  simp [released_files, List.filterMap_append]

/-- On a handle whose `is_userptr` is 0, no sequence of operations calls the file
release. -/
theorem run_ops_released_files (ops : List Op) (mem m : videobuf2_contig_pmem)
    (t : List Event) (h : run_ops ops mem = some (m, t)) (hu : mem.is_userptr = 0) :
    released_files t = [] := by
  induction ops generalizing mem t with
  | nil =>
      simp only [run_ops, Option.some.injEq, Prod.mk.injEq] at h
      rw [← h.2]
      rfl
  | cons op ops ih =>
      obtain ⟨m1, t1, t2, h1, h2, ht⟩ := run_ops_cons op ops mem m t h
      rw [ht, released_files_append, apply_op_released_files mem m1 op t1 h1 hu,
        ih m1 t2 h2 (apply_op_kernel_owned mem m1 op t1 h1 hu).2]
      rfl

/-- An operation of the mapping lifecycle keeps `count` a 32-bit value. -/
theorem apply_op_count_lt (mem m : videobuf2_contig_pmem) (op : Op) (t : List Event)
    (h : apply_op mem op = some (m, t)) (hmap : op.is_mapping = true)
    (hc : mem.count < WORD) : m.count < WORD := by
  have hW : 0 < WORD := by decide
  cases op with
  | set_layout y c path => cases hmap
  | bind env y c off path => cases hmap
  | release_user_memory => cases hmap
  | mmap env buf_priv vma =>
      cases hr : msm_vb2_mem_ops_mmap env buf_priv mem vma with
      | none =>
          simp only [apply_op, hr] at h
          cases h
      | some r =>
          simp only [apply_op, hr] at h
          injection h with h
          injection h with h1 h2
          subst h1 h2
          rcases (msm_vb2_mem_ops_mmap_cases env buf_priv mem vma r hr).2.2.2 with
            ⟨-, -, e⟩ | ⟨-, -, e⟩
          · rw [e]
            exact hc
          · rw [e]
            exact Nat.mod_lt _ hW
  | vm_open vma =>
      injection h with h
      injection h with h1 h2
      subst h1 h2
      exact Nat.mod_lt _ hW
  | vm_close vma =>
      injection h with h
      injection h with h1 h2
      subst h1 h2
      show (if mem.count = 0 then WORD - 1 else mem.count - 1) < WORD
      by_cases h0 : mem.count = 0
      · rw [if_pos h0]
        exact Nat.sub_lt hW (by decide)
      · rw [if_neg h0]
        exact Nat.lt_of_le_of_lt (Nat.sub_le _ _) hc

/-- A sequence of operations of the mapping lifecycle keeps `count` a 32-bit value. -/
theorem run_ops_count_lt (ops : List Op) (mem m : videobuf2_contig_pmem) (t : List Event)
    (h : run_ops ops mem = some (m, t)) (hmap : ∀ op ∈ ops, op.is_mapping = true)
    (hc : mem.count < WORD) : m.count < WORD := by
  induction ops generalizing mem t with
  | nil =>
      simp only [run_ops, Option.some.injEq, Prod.mk.injEq] at h
      rw [← h.1]
      exact hc
  | cons op ops ih =>
      obtain ⟨m1, t1, t2, h1, h2, -⟩ := run_ops_cons op ops mem m t h
      exact ih m1 t2 h2 (fun o ho => hmap o (List.mem_cons_of_mem _ ho))
        (apply_op_count_lt mem m1 op t1 h1 (hmap op (List.mem_cons_self _ _)) hc)

/-- The return code of `videobuf2_pmem_contig_user_get`: 0 on a bound handle, the
resolver's code otherwise. -/
theorem videobuf2_pmem_contig_user_get_rc (env : Env) (mem : videobuf2_contig_pmem)
    (y c off : Nat) (path : Int) :
    (videobuf2_pmem_contig_user_get env mem y c off path).rc
      = if mem.phyaddr ≠ 0 then 0 else (env.get_pmem_file (to_int mem.vaddr)).rc := by
  by_cases hp : mem.phyaddr = 0
  · rw [if_neg (not_not.mpr hp)]
    by_cases hrc : (env.get_pmem_file (to_int mem.vaddr)).rc < 0
    · rw [videobuf2_pmem_contig_user_get_fail env mem y c off path hp hrc]
    · rw [videobuf2_pmem_contig_user_get_ok env mem y c off path hp hrc]
  · rw [if_pos hp, videobuf2_pmem_contig_user_get_bound env mem y c off path hp]

/-- The decrement of `videobuf2_vm_close` is subtraction of one modulo 2^32 on a 32-bit
`count`. -/
theorem videobuf2_vm_close_count (vma : vm_area_struct) (mem : videobuf2_contig_pmem)
    (hc : mem.count < WORD) :
    ((videobuf2_vm_close vma mem).count : Int) = ((mem.count : Int) - 1) % (WORD : Int) := by
  have hW : WORD = 4294967296 := by decide
  rw [hW] at hc ⊢
  show (((if mem.count = 0 then WORD - 1 else mem.count - 1 : Nat)) : Int) = _
  rw [hW]
  by_cases h0 : mem.count = 0
  · rw [if_pos h0, h0]
    decide
  · rw [if_neg h0]
    push_cast
    omega

/-- The function `videobuf2_pmem_contig_user_get` never reads `magic`: on a handle that
differs only in `magic` it returns the same code, makes the same calls and leaves the
same handle, `magic` apart. -/
theorem videobuf2_pmem_contig_user_get_magic (env : Env) (mem : videobuf2_contig_pmem)
    (y c off : Nat) (path : Int) (g : Nat) :
    videobuf2_pmem_contig_user_get env { mem with magic := g } y c off path
      = { rc := (videobuf2_pmem_contig_user_get env mem y c off path).rc,
          mem := { (videobuf2_pmem_contig_user_get env mem y c off path).mem with
                   magic := g },
          trace := (videobuf2_pmem_contig_user_get env mem y c off path).trace } := by
  by_cases hp : mem.phyaddr = 0
  · by_cases hrc : (env.get_pmem_file (to_int mem.vaddr)).rc < 0
    · rw [videobuf2_pmem_contig_user_get_fail env mem y c off path hp hrc,
        videobuf2_pmem_contig_user_get_fail env { mem with magic := g } y c off path hp hrc]
      dsimp only
      cases (env.get_pmem_file (to_int mem.vaddr)).out <;> rfl
    · rw [videobuf2_pmem_contig_user_get_ok env mem y c off path hp hrc,
        videobuf2_pmem_contig_user_get_ok env { mem with magic := g } y c off path hp hrc]
      dsimp only
      cases (env.get_pmem_file (to_int mem.vaddr)).out <;> rfl
  · rw [videobuf2_pmem_contig_user_get_bound env mem y c off path hp,
      videobuf2_pmem_contig_user_get_bound env { mem with magic := g } y c off path hp]

/-- One operation of the mapping lifecycle moves `count` by its change to the number of
open mappings, as long as the result is a 32-bit value that is not negative. -/
theorem apply_op_count (mem m : videobuf2_contig_pmem) (op : Op) (t : List Event)
    (h : apply_op mem op = some (m, t)) (hmap : op.is_mapping = true)
    (h0 : 0 ≤ (mem.count : Int) + Op.count_delta mem op)
    (h1 : (mem.count : Int) + Op.count_delta mem op < (WORD : Int)) :
    (m.count : Int) = (mem.count : Int) + Op.count_delta mem op := by
  cases op with
  | set_layout y c path => cases hmap
  | bind env y c off path => cases hmap
  | release_user_memory => cases hmap
  | mmap env buf_priv vma =>
      cases hr : msm_vb2_mem_ops_mmap env buf_priv mem vma with
      | none =>
          simp only [apply_op, hr] at h
          cases h
      | some r =>
          simp only [apply_op, hr] at h
          injection h with h
          injection h with hm ht
          subst hm ht
          rcases (msm_vb2_mem_ops_mmap_cases env buf_priv mem vma r hr).2.2.2 with
            ⟨hrv, -, e⟩ | ⟨hrv, -, e⟩
          · have hrv2 : mmap_remap_retval env mem vma ≠ 0 := hrv
            have hd : Op.count_delta mem (Op.mmap env buf_priv vma) = 0 := by
              show (if mmap_remap_retval env mem vma = 0 then (1 : Int) else 0) = 0
              rw [if_neg hrv2]
            rw [e, hd]
            omega
          · have hrv2 : mmap_remap_retval env mem vma = 0 := hrv
            have hd : Op.count_delta mem (Op.mmap env buf_priv vma) = 1 := by
              show (if mmap_remap_retval env mem vma = 0 then (1 : Int) else 0) = 1
              rw [if_pos hrv2]
            rw [hd] at h1 ⊢
            have hlt : mem.count + 1 < WORD := by omega
            rw [e]
            show (((mem.count + 1) % WORD : Nat) : Int) = _
            rw [Nat.mod_eq_of_lt hlt]
            omega
  | vm_open vma =>
      injection h with h
      injection h with hm ht
      subst hm ht
      have hd : Op.count_delta mem (Op.vm_open vma) = 1 := rfl
      rw [hd] at h1 ⊢
      have hlt : mem.count + 1 < WORD := by omega
      show (((mem.count + 1) % WORD : Nat) : Int) = _
      rw [Nat.mod_eq_of_lt hlt]
      omega
  | vm_close vma =>
      injection h with h
      injection h with hm ht
      subst hm ht
      have hd : Op.count_delta mem (Op.vm_close vma) = -1 := rfl
      rw [hd] at h0 ⊢
      have hne : mem.count ≠ 0 := by omega
      show ((if mem.count = 0 then WORD - 1 else mem.count - 1 : Nat) : Int) = _
      rw [if_neg hne]
      omega

/-- Unfolding of `net_mappings` on a sequence whose first operation returns. -/
theorem net_mappings_cons (op : Op) (ops : List Op) (mem m1 : videobuf2_contig_pmem)
    (t1 : List Event) (h : apply_op mem op = some (m1, t1)) :
    net_mappings (op :: ops) mem = Op.count_delta mem op + net_mappings ops m1 := by
  simp only [net_mappings, h]

/-- Over a sequence of operations of the mapping lifecycle, `count` moves by the number
of successful mmaps plus opens minus closes, as long as the running number after every
prefix is a 32-bit value that is not negative. -/
theorem run_ops_count (ops : List Op) (mem m : videobuf2_contig_pmem) (t : List Event)
    (h : run_ops ops mem = some (m, t)) (hmap : ∀ op ∈ ops, op.is_mapping = true)
    (hbal : ∀ k, k ≤ ops.length →
      0 ≤ (mem.count : Int) + net_mappings (ops.take k) mem ∧
      (mem.count : Int) + net_mappings (ops.take k) mem < (WORD : Int)) :
    (m.count : Int) = (mem.count : Int) + net_mappings ops mem := by
  induction ops generalizing mem t with
  | nil =>
      simp only [run_ops, Option.some.injEq, Prod.mk.injEq] at h
      rw [← h.1]
      show (mem.count : Int) = (mem.count : Int) + 0
      omega
  | cons op ops ih =>
      obtain ⟨m1, t1, t2, h1, h2, -⟩ := run_ops_cons op ops mem m t h
      have hone := hbal 1 (by simp)
      have e1 : net_mappings ((op :: ops).take 1) mem = Op.count_delta mem op := by
        show net_mappings [op] mem = _
        rw [net_mappings_cons op [] mem m1 t1 h1]
        show Op.count_delta mem op + 0 = _
        omega
      rw [e1] at hone
      have hstep := apply_op_count mem m1 op t1 h1 (hmap op (List.mem_cons_self _ _))
        hone.1 hone.2
      have hrest := ih m1 t2 h2 (fun o ho => hmap o (List.mem_cons_of_mem _ ho))
        (fun k hk => by
          have hk2 := hbal (k + 1) (by simpa using hk)
          have e2 : net_mappings ((op :: ops).take (k + 1)) mem
              = Op.count_delta mem op + net_mappings (ops.take k) m1 := by
            show net_mappings (op :: ops.take k) mem = _
            exact net_mappings_cons op (ops.take k) mem m1 t1 h1
          rw [e2] at hk2
          rw [hstep]
          constructor <;> omega)
      rw [hrest, hstep, net_mappings_cons op ops mem m1 t1 h1]
      omega

/-! ## Claims -/

/-- C1, as stated, fails: with an allocator that returns 0 (not an error value),
`msm_vb2_mem_ops_alloc` for 4096 bytes neither returns a handle with a non-zero `phyaddr`
nor fails with `-ENOMEM`; it returns a handle whose `phyaddr` is 0. -/
theorem C1_alloc_zero_address_counterexample :
    ¬ ((∃ mem, (msm_vb2_mem_ops_alloc (env_ok 0 out_example) 0 4096).ret = .ok mem ∧
          mem.phyaddr ≠ 0 ∧ mem.size = 4096 ∧ mem.is_userptr = 0 ∧ mem.count = 0) ∨
       ((msm_vb2_mem_ops_alloc (env_ok 0 out_example) 0 4096).ret = .error (-ENOMEM) ∧
          held_ranges (msm_vb2_mem_ops_alloc (env_ok 0 out_example) 0 4096).trace = [] ∧
          live_storage (msm_vb2_mem_ops_alloc (env_ok 0 out_example) 0 4096).trace = 0)) := by
  have h : (msm_vb2_mem_ops_alloc (env_ok 0 out_example) 0 4096).ret
      = .ok { kzalloc_zeroed with magic := MAGIC_PMEM, size := 4096, phyaddr := 0 } := by
    rfl
  rw [h]
  rintro (⟨mem, h1, h2, -⟩ | ⟨h1, -⟩)
  · injection h1 with h1
    subst h1
    exact h2 rfl
  · cases h1

/-- C1 (amended): for every requested size S below 2^32 and every behaviour of the
collaborators, `msm_vb2_mem_ops_alloc` either returns a handle whose `phyaddr` is the value
r the allocator returned (r is not an error value; the handle's `phyaddr` is non-zero
whenever r is), whose `size` is `PAGE_ALIGN S`, whose `is_userptr` is 0 and whose `count`
is 0, holding exactly the range r and one handle storage; or it fails with `-ENOMEM`
holding no physical range and no handle storage. `PAGE_ALIGN S` is S rounded up to the
page size when S ≤ 2^32 - 4096, and 0 above that. -/
theorem C1_alloc_handle_or_enomem (env : Env) (alloc_ctx S : Nat) (hW : S < WORD) :
    ((∃ mem, (msm_vb2_mem_ops_alloc env alloc_ctx S).ret = .ok mem ∧
        IS_ERR (env.allocate_contiguous_ebi_nomap (PAGE_ALIGN S) SZ_4K % WORD) = false ∧
        mem.phyaddr = env.allocate_contiguous_ebi_nomap (PAGE_ALIGN S) SZ_4K % WORD ∧
        (env.allocate_contiguous_ebi_nomap (PAGE_ALIGN S) SZ_4K % WORD ≠ 0 →
          mem.phyaddr ≠ 0) ∧
        mem.size = PAGE_ALIGN S ∧ mem.is_userptr = 0 ∧ mem.count = 0 ∧
        held_ranges (msm_vb2_mem_ops_alloc env alloc_ctx S).trace = [mem.phyaddr] ∧
        live_storage (msm_vb2_mem_ops_alloc env alloc_ctx S).trace = 1) ∨
      ((msm_vb2_mem_ops_alloc env alloc_ctx S).ret = .error (-ENOMEM) ∧
        (env.kzalloc = false ∨
          IS_ERR (env.allocate_contiguous_ebi_nomap (PAGE_ALIGN S) SZ_4K % WORD) = true) ∧
        held_ranges (msm_vb2_mem_ops_alloc env alloc_ctx S).trace = [] ∧
        live_storage (msm_vb2_mem_ops_alloc env alloc_ctx S).trace = 0)) ∧
    (S ≤ WORD - PAGE_SIZE →
      PAGE_SIZE ∣ PAGE_ALIGN S ∧ S ≤ PAGE_ALIGN S ∧ PAGE_ALIGN S < S + PAGE_SIZE) ∧
    (WORD - PAGE_SIZE < S → PAGE_ALIGN S = 0) := by
  refine ⟨?_, PAGE_ALIGN_round_up S, ?_⟩
  · rcases msm_vb2_mem_ops_alloc_cases env alloc_ctx S with ⟨hk, h⟩ | ⟨hk, he, h⟩ | ⟨hk, he, h⟩
    · right
      rw [h]
      exact ⟨rfl, Or.inl hk, rfl, rfl⟩
    · right
      rw [h]
      refine ⟨rfl, Or.inr he, ?_, rfl⟩
      simp [held_ranges, held_step, he]
    · left
      rw [h]
      refine ⟨_, rfl, he, rfl, fun h0 => h0, rfl, rfl, rfl, ?_, rfl⟩
      simp [held_ranges, held_step, he]
  · intro h
    have hw : WORD - PAGE_SIZE = 4294963200 := by decide
    have hW2 : WORD = 4294967296 := by decide
    show ((S + (2 ^ 12 - 1)) % 2 ^ 32) / 2 ^ 12 * 2 ^ 12 = 0
    norm_num
    omega

/-- C1 (amended), at work: 8192 bytes asked of an allocator that returns 0x10000000. -/
theorem C1_alloc_handle_or_enomem_witness :
    ((∃ mem, (msm_vb2_mem_ops_alloc (env_ok 0x10000000 out_example) 0 8192).ret = .ok mem ∧
        IS_ERR ((env_ok 0x10000000 out_example).allocate_contiguous_ebi_nomap
          (PAGE_ALIGN 8192) SZ_4K % WORD) = false ∧
        mem.phyaddr = (env_ok 0x10000000 out_example).allocate_contiguous_ebi_nomap
          (PAGE_ALIGN 8192) SZ_4K % WORD ∧
        ((env_ok 0x10000000 out_example).allocate_contiguous_ebi_nomap
            (PAGE_ALIGN 8192) SZ_4K % WORD ≠ 0 → mem.phyaddr ≠ 0) ∧
        mem.size = PAGE_ALIGN 8192 ∧ mem.is_userptr = 0 ∧ mem.count = 0 ∧
        held_ranges (msm_vb2_mem_ops_alloc (env_ok 0x10000000 out_example) 0 8192).trace
          = [mem.phyaddr] ∧
        live_storage (msm_vb2_mem_ops_alloc (env_ok 0x10000000 out_example) 0 8192).trace
          = 1) ∨
      ((msm_vb2_mem_ops_alloc (env_ok 0x10000000 out_example) 0 8192).ret
          = .error (-ENOMEM) ∧
        ((env_ok 0x10000000 out_example).kzalloc = false ∨
          IS_ERR ((env_ok 0x10000000 out_example).allocate_contiguous_ebi_nomap
            (PAGE_ALIGN 8192) SZ_4K % WORD) = true) ∧
        held_ranges (msm_vb2_mem_ops_alloc (env_ok 0x10000000 out_example) 0 8192).trace
          = [] ∧
        live_storage (msm_vb2_mem_ops_alloc (env_ok 0x10000000 out_example) 0 8192).trace
          = 0)) ∧
    (8192 ≤ WORD - PAGE_SIZE →
      PAGE_SIZE ∣ PAGE_ALIGN 8192 ∧ 8192 ≤ PAGE_ALIGN 8192 ∧
        PAGE_ALIGN 8192 < 8192 + PAGE_SIZE) ∧
    (WORD - PAGE_SIZE < 8192 → PAGE_ALIGN 8192 = 0) :=
  C1_alloc_handle_or_enomem (env_ok 0x10000000 out_example) 0 8192 (by decide)

/-- C2, as stated, fails: a handle created by `msm_vb2_mem_ops_alloc` at physical address
0x10000000 and then passed through `videobuf2_pmem_contig_user_put` (release_user_memory)
has `phyaddr` 0, so `msm_vb2_mem_ops_put` calls the allocator's free with address 0, not
with the address the allocator returned at creation. -/
theorem C2_put_after_release_counterexample :
    ∃ mem0 mem t,
      (msm_vb2_mem_ops_alloc (env_ok 0x10000000 out_example) 0 8192).ret = .ok mem0 ∧
      mem0.phyaddr = 0x10000000 ∧
      run_ops [Op.release_user_memory] mem0 = some (mem, t) ∧
      free_calls (msm_vb2_mem_ops_put mem) = [0] ∧
      free_calls (msm_vb2_mem_ops_put mem) ≠ [mem0.phyaddr] :=
  ⟨{ kzalloc_zeroed with magic := MAGIC_PMEM, size := 8192, phyaddr := 0x10000000 },
   { kzalloc_zeroed with magic := MAGIC_PMEM }, [], rfl, rfl, rfl, rfl, by decide⟩

/-- C2 (amended): for every handle created by `msm_vb2_mem_ops_alloc`, in any state
reached from creation through the public operations (set layout, bind,
release_user_memory, mmap, open, close), none of which calls the allocator's free,
`msm_vb2_mem_ops_put` calls the physical allocator's free exactly once, with the handle's
current `phyaddr`; that is the address the allocator returned at creation when it was
non-zero and no release_user_memory was among the operations. For every handle,
`msm_vb2_mem_ops_put_userptr` never calls the physical allocator's free. -/
theorem C2_put_frees_once (env : Env) (alloc_ctx S : Nat) (mem0 mem : videobuf2_contig_pmem)
    (ops : List Op) (t : List Event)
    (h0 : (msm_vb2_mem_ops_alloc env alloc_ctx S).ret = .ok mem0)
    (hr : run_ops ops mem0 = some (mem, t)) :
    free_calls t = [] ∧
    free_calls (msm_vb2_mem_ops_put mem) = [mem.phyaddr] ∧
    mem0.phyaddr = env.allocate_contiguous_ebi_nomap (PAGE_ALIGN S) SZ_4K % WORD ∧
    (mem0.phyaddr ≠ 0 → (∀ op ∈ ops, op.is_release = false) →
      free_calls (msm_vb2_mem_ops_put mem)
        = [env.allocate_contiguous_ebi_nomap (PAGE_ALIGN S) SZ_4K % WORD]) ∧
    (∀ m : videobuf2_contig_pmem, free_calls (msm_vb2_mem_ops_put_userptr m) = []) := by
  have hmem0 : mem0.is_userptr = 0 ∧
      mem0.phyaddr = env.allocate_contiguous_ebi_nomap (PAGE_ALIGN S) SZ_4K % WORD := by
    rcases msm_vb2_mem_ops_alloc_cases env alloc_ctx S with ⟨-, h⟩ | ⟨-, -, h⟩ | ⟨-, -, h⟩
    · rw [h] at h0; cases h0
    · rw [h] at h0; cases h0
    · rw [h] at h0
      injection h0 with h0
      subst h0
      exact ⟨rfl, rfl⟩
  have hk := run_ops_kernel_owned ops mem0 mem t hr hmem0.1
  have hput : free_calls (msm_vb2_mem_ops_put mem) = [mem.phyaddr] := by
    unfold msm_vb2_mem_ops_put
    rw [if_pos hk.2]
    rfl
  refine ⟨hk.1, hput, hmem0.2, ?_, fun _ => rfl⟩
  intro hp hrel
  rw [hput, run_ops_phyaddr ops mem0 mem t hr hrel hp, hmem0.2]

/-- C2 (amended), at work: allocate at 0x10000000, set the layout, map, then put. -/
theorem C2_put_frees_once_witness :
    free_calls ([] ++ ([Event.remap_pfn_range 0x40000000 0x10000 8192 0] ++ [])) = [] ∧
    free_calls (msm_vb2_mem_ops_put
      { kzalloc_zeroed with magic := MAGIC_PMEM, size := 8192, phyaddr := 0x10000000,
                            cbcr_off := 2048, vaddr := 0x40000000, count := 1 })
      = [0x10000000] :=
  have h := C2_put_frees_once (env_ok 0x10000000 out_example) 0 8192
    { kzalloc_zeroed with magic := MAGIC_PMEM, size := 8192, phyaddr := 0x10000000 }
    { kzalloc_zeroed with magic := MAGIC_PMEM, size := 8192, phyaddr := 0x10000000,
                          cbcr_off := 2048, vaddr := 0x40000000, count := 1 }
    [Op.set_layout 0 2048 0,
     Op.mmap (env_ok 0x10000000 out_example) 1
       { vm_start := 0x40000000, vm_end := 0x40004000, vm_page_prot := 0, vm_flags := 0,
         vm_ops := none, vm_private_data := 0 }]
    ([] ++ ([Event.remap_pfn_range 0x40000000 0x10000 8192 0] ++ []))
    rfl rfl
  ⟨h.1, h.2.2.2.1 (by decide) (by decide)⟩

/-- C3: for every valid handle with `count` 0, after a successful `msm_vb2_mem_ops_mmap`
(it returns 0) `msm_vb2_mem_ops_num_users` returns 1; after a following
`videobuf2_vm_open` on the same region it returns 2; after a following
`videobuf2_vm_close` it returns 1. The region carries the callbacks and the handle. -/
theorem C3_mmap_open_close_num_users (env : Env) (buf_priv : Nat)
    (mem : videobuf2_contig_pmem) (vma : vm_area_struct) (r : mmap_result)
    (hc : mem.count = 0)
    (h : msm_vb2_mem_ops_mmap env buf_priv mem vma = some r) (hrc : r.rc = 0) :
    r.vma.vm_ops = some vm_operations_struct.videobuf2_vm_ops ∧
    r.vma.vm_private_data = buf_priv ∧
    msm_vb2_mem_ops_num_users r.mem = some 1 ∧
    msm_vb2_mem_ops_num_users (videobuf2_vm_open r.vma r.mem) = some 2 ∧
    msm_vb2_mem_ops_num_users
      (videobuf2_vm_close r.vma (videobuf2_vm_open r.vma r.mem)) = some 1 := by
  obtain ⟨hb, hm, -, hcase⟩ := msm_vb2_mem_ops_mmap_cases env buf_priv mem vma r h
  have hrv : mmap_remap_retval env mem vma = 0 := by
    rcases hcase with ⟨-, e, -⟩ | ⟨e, -, -⟩
    · rw [e] at hrc
      exact absurd hrc (by decide)
    · exact e
  have hs := msm_vb2_mem_ops_mmap_success env buf_priv mem vma hb hm hrv
  rw [hs] at h
  injection h with h
  subst h
  refine ⟨rfl, rfl, ?_, ?_, ?_⟩
  · simp [msm_vb2_mem_ops_num_users, hm, hc, WORD]
  · simp [msm_vb2_mem_ops_num_users, videobuf2_vm_open, hm, hc, WORD]
  · simp [msm_vb2_mem_ops_num_users, videobuf2_vm_open, videobuf2_vm_close, hm, hc, WORD]

/-- C3, at work: a fresh 8192-byte handle at 0x10000000 mapped at 0x40000000. -/
theorem C3_mmap_open_close_num_users_witness :
    msm_vb2_mem_ops_num_users
      { kzalloc_zeroed with magic := MAGIC_PMEM, size := 8192, phyaddr := 0x10000000,
                            vaddr := 0x40000000, count := 1 } = some 1 ∧
    msm_vb2_mem_ops_num_users
      (videobuf2_vm_open
        { vm_start := 0x40000000, vm_end := 0x40004000, vm_page_prot := 0,
          vm_flags := VM_DONTEXPAND,
          vm_ops := some vm_operations_struct.videobuf2_vm_ops, vm_private_data := 1 }
        { kzalloc_zeroed with magic := MAGIC_PMEM, size := 8192, phyaddr := 0x10000000,
                              vaddr := 0x40000000, count := 1 }) = some 2 :=
  have h := C3_mmap_open_close_num_users (env_ok 0x10000000 out_example) 1
    { kzalloc_zeroed with magic := MAGIC_PMEM, size := 8192, phyaddr := 0x10000000 }
    { vm_start := 0x40000000, vm_end := 0x40004000, vm_page_prot := 0, vm_flags := 0,
      vm_ops := none, vm_private_data := 0 }
    { rc := 0,
      mem := { kzalloc_zeroed with magic := MAGIC_PMEM, size := 8192, phyaddr := 0x10000000,
                                   vaddr := 0x40000000, count := 1 },
      vma := { vm_start := 0x40000000, vm_end := 0x40004000, vm_page_prot := 0,
               vm_flags := VM_DONTEXPAND,
               vm_ops := some vm_operations_struct.videobuf2_vm_ops, vm_private_data := 1 },
      trace := [Event.remap_pfn_range 0x40000000 0x10000 8192 0] }
    rfl rfl rfl
  ⟨h.2.2.1, h.2.2.2.1⟩

/-- C4: for every valid handle and every target region, `msm_vb2_mem_ops_mmap` makes one
page-table mapping call, and the length it passes is the smaller of `vm_end - vm_start`
(an `unsigned long` difference) and the handle's `size`; for a region with
`vm_start ≤ vm_end` that is `min (vm_end - vm_start) size`, and when the region is larger
than `size` exactly `size` bytes are mapped. -/
theorem C4_mmap_length_is_min (env : Env) (buf_priv : Nat)
    (mem : videobuf2_contig_pmem) (vma : vm_area_struct) (hb : buf_priv ≠ 0)
    (hm : mem.magic = MAGIC_PMEM) :
    ∃ r, msm_vb2_mem_ops_mmap env buf_priv mem vma = some r ∧
      remap_lengths r.trace
        = [min ((vma.vm_end + WORD - vma.vm_start) % WORD) mem.size] ∧
      (vma.vm_start ≤ vma.vm_end → vma.vm_end < WORD →
        remap_lengths r.trace = [min (vma.vm_end - vma.vm_start) mem.size]) ∧
      (vma.vm_start ≤ vma.vm_end → vma.vm_end < WORD →
        mem.size ≤ vma.vm_end - vma.vm_start → remap_lengths r.trace = [mem.size]) := by
  have hlen : mmap_length mem vma
      = min ((vma.vm_end + WORD - vma.vm_start) % WORD) mem.size := by
    unfold mmap_length
    by_cases hlt : (vma.vm_end + WORD - vma.vm_start) % WORD < mem.size
    · rw [if_pos hlt, Nat.min_eq_left (Nat.le_of_lt hlt)]
    · rw [if_neg hlt, Nat.min_eq_right (Nat.le_of_not_lt hlt)]
  have key : ∃ r, msm_vb2_mem_ops_mmap env buf_priv mem vma = some r ∧
      remap_lengths r.trace = [mmap_length mem vma] := by
    by_cases hrv : mmap_remap_retval env mem vma = 0
    · exact ⟨_, msm_vb2_mem_ops_mmap_success env buf_priv mem vma hb hm hrv, rfl⟩
    · exact ⟨_, msm_vb2_mem_ops_mmap_failure env buf_priv mem vma hb hm hrv, rfl⟩
  obtain ⟨r, h1, h2⟩ := key
  refine ⟨r, h1, ?_, ?_, ?_⟩
  · rw [h2, hlen]
  · intro hse he
    rw [h2, mmap_length_eq_min mem vma hse he]
  · intro hse he hle
    rw [h2, mmap_length_eq_min mem vma hse he, Nat.min_eq_right hle]

/-- C4, at work: a handle of size 8192 mapped into a 16384-byte region maps 8192 bytes. -/
theorem C4_mmap_length_is_min_witness :
    ∃ r, msm_vb2_mem_ops_mmap (env_ok 0x10000000 out_example) 1
        { kzalloc_zeroed with magic := MAGIC_PMEM, size := 8192, phyaddr := 0x10000000 }
        { vm_start := 0x40000000, vm_end := 0x40004000, vm_page_prot := 0, vm_flags := 0,
          vm_ops := none, vm_private_data := 0 } = some r ∧
      remap_lengths r.trace = [8192] := by
  obtain ⟨r, h1, -, -, h3⟩ := C4_mmap_length_is_min (env_ok 0x10000000 out_example) 1
    { kzalloc_zeroed with magic := MAGIC_PMEM, size := 8192, phyaddr := 0x10000000 }
    { vm_start := 0x40000000, vm_end := 0x40004000, vm_page_prot := 0, vm_flags := 0,
      vm_ops := none, vm_private_data := 0 }
    (by decide) rfl
  exact ⟨r, h1, h3 (by decide) (by decide) (by decide)⟩

/-- C5: for every valid handle, when the page-table mapping call returns a non-zero code,
`msm_vb2_mem_ops_mmap` returns `-ENOMEM` and leaves the handle as it was, every field
(`vaddr`, `count`, `phyaddr`, `size`, `is_userptr`, layout) included. -/
theorem C5_mmap_failure_enomem (env : Env) (buf_priv : Nat)
    (mem : videobuf2_contig_pmem) (vma : vm_area_struct) (hb : buf_priv ≠ 0)
    (hm : mem.magic = MAGIC_PMEM) (hrv : mmap_remap_retval env mem vma ≠ 0) :
    ∃ r, msm_vb2_mem_ops_mmap env buf_priv mem vma = some r ∧
      r.rc = -ENOMEM ∧ r.mem = mem :=
  ⟨_, msm_vb2_mem_ops_mmap_failure env buf_priv mem vma hb hm hrv, rfl, rfl⟩

/-- C5, at work: the page-table call fails with -22 on a mapped handle with count 1. -/
theorem C5_mmap_failure_enomem_witness :
    ∃ r, msm_vb2_mem_ops_mmap (env_fail 0x10000000 (-22)) 1
        { kzalloc_zeroed with magic := MAGIC_PMEM, size := 8192, phyaddr := 0x10000000,
                              vaddr := 0x40000000, count := 1, cbcr_off := 2048 }
        { vm_start := 0x50000000, vm_end := 0x50002000, vm_page_prot := 0, vm_flags := 0,
          vm_ops := none, vm_private_data := 0 } = some r ∧
      r.rc = -12 ∧
      r.mem = { kzalloc_zeroed with magic := MAGIC_PMEM, size := 8192, phyaddr := 0x10000000,
                                    vaddr := 0x40000000, count := 1, cbcr_off := 2048 } :=
  C5_mmap_failure_enomem (env_fail 0x10000000 (-22)) 1
    { kzalloc_zeroed with magic := MAGIC_PMEM, size := 8192, phyaddr := 0x10000000,
                          vaddr := 0x40000000, count := 1, cbcr_off := 2048 }
    { vm_start := 0x50000000, vm_end := 0x50002000, vm_page_prot := 0, vm_flags := 0,
      vm_ops := none, vm_private_data := 0 }
    (by decide) rfl (by decide)

/-- C6: for every unbound handle (`phyaddr` 0) and every successful resolution (the
resolver returns a code that is not negative, having stored the physical base B and the
file reference F), `videobuf2_pmem_contig_user_get` returns that code and leaves
`phyaddr` equal to B + off in 32-bit arithmetic (B + off itself when that is below 2^32),
`file` equal to F, `y_off` to y, `cbcr_off` to c and `buffer_type` to path, every other
field as it was, after one call of the resolver. -/
theorem C6_user_get_binds (env : Env) (mem : videobuf2_contig_pmem) (y c off : Nat)
    (path : Int) (B kv len F : Nat) (rc : Int) (hp : mem.phyaddr = 0)
    (hr : env.get_pmem_file (to_int mem.vaddr)
      = { rc := rc, out := some { start := B, vstart := kv, len := len, filp := F } })
    (hrc : 0 ≤ rc) :
    videobuf2_pmem_contig_user_get env mem y c off path
      = { rc := rc,
          mem := { mem with phyaddr := (B + off) % WORD, file := F, y_off := y,
                            cbcr_off := c, buffer_type := path },
          trace := [Event.get_pmem_file (to_int mem.vaddr)] } ∧
    (rc = 0 → (videobuf2_pmem_contig_user_get env mem y c off path).rc = 0) ∧
    (B + off < WORD →
      (videobuf2_pmem_contig_user_get env mem y c off path).mem.phyaddr = B + off) := by
  have h := videobuf2_pmem_contig_user_get_resolved env mem y c off path
    { start := B, vstart := kv, len := len, filp := F } rc hp hr hrc
  refine ⟨h, ?_, ?_⟩
  · intro h0
    rw [h]
    exact h0
  · intro hlt
    rw [h]
    exact Nat.mod_eq_of_lt hlt

/-- C6, at work: a handle from `msm_vb2_mem_ops_get_userptr` for address 0x1000 and size
4096, bound with y = 0, c = 2048, off = 0 against a resolver that returns base 0x80000000
and file reference 7. -/
theorem C6_user_get_binds_witness :
    videobuf2_pmem_contig_user_get (env_ok 0 out_example)
        { kzalloc_zeroed with magic := MAGIC_PMEM, is_userptr := 1, vaddr := 0x1000,
                              size := 4096 } 0 2048 0 1
      = { rc := 0,
          mem := { kzalloc_zeroed with magic := MAGIC_PMEM, is_userptr := 1, vaddr := 0x1000,
                                       size := 4096, phyaddr := 0x80000000, file := 7,
                                       y_off := 0, cbcr_off := 2048, buffer_type := 1 },
          trace := [Event.get_pmem_file 0x1000] } :=
  (C6_user_get_binds (env_ok 0 out_example)
    { kzalloc_zeroed with magic := MAGIC_PMEM, is_userptr := 1, vaddr := 0x1000,
                          size := 4096 } 0 2048 0 1 0x80000000 0 4096 7 0 rfl rfl
    (by decide)).1

/-- C7: `videobuf2_pmem_contig_user_get` is idempotent: on every handle that a first
successful call has bound (it returned 0 and left a non-zero `phyaddr`), a second call,
with any collaborators and any arguments, returns 0, does not call the resolver, and
leaves the handle as it was, `phyaddr`, `file`, `y_off`, `cbcr_off` and `buffer_type`
included. -/
theorem C7_user_get_idempotent (env1 env2 : Env) (mem : videobuf2_contig_pmem)
    (y1 c1 off1 : Nat) (path1 : Int) (y2 c2 off2 : Nat) (path2 : Int)
    (h : (videobuf2_pmem_contig_user_get env1 mem y1 c1 off1 path1).rc = 0 ∧
      (videobuf2_pmem_contig_user_get env1 mem y1 c1 off1 path1).mem.phyaddr ≠ 0) :
    videobuf2_pmem_contig_user_get env2
        (videobuf2_pmem_contig_user_get env1 mem y1 c1 off1 path1).mem y2 c2 off2 path2
      = { rc := 0,
          mem := (videobuf2_pmem_contig_user_get env1 mem y1 c1 off1 path1).mem,
          trace := [] } ∧
    resolver_calls (videobuf2_pmem_contig_user_get env2
        (videobuf2_pmem_contig_user_get env1 mem y1 c1 off1 path1).mem
        y2 c2 off2 path2).trace = [] := by
  have e := videobuf2_pmem_contig_user_get_bound env2
    (videobuf2_pmem_contig_user_get env1 mem y1 c1 off1 path1).mem y2 c2 off2 path2 h.2
  refine ⟨e, ?_⟩
  rw [e]
  rfl

/-- C7, at work: bind against base 0x80000000, then bind again with other arguments
against a resolver that would fail. -/
theorem C7_user_get_idempotent_witness :
    videobuf2_pmem_contig_user_get (env_fail 0 (-22))
        (videobuf2_pmem_contig_user_get (env_ok 0 out_example)
          { kzalloc_zeroed with magic := MAGIC_PMEM, is_userptr := 1, vaddr := 0x1000,
                                size := 4096 } 0 2048 0 1).mem 16 4096 256 2
      = { rc := 0,
          mem := (videobuf2_pmem_contig_user_get (env_ok 0 out_example)
            { kzalloc_zeroed with magic := MAGIC_PMEM, is_userptr := 1, vaddr := 0x1000,
                                  size := 4096 } 0 2048 0 1).mem,
          trace := [] } :=
  (C7_user_get_idempotent (env_ok 0 out_example) (env_fail 0 (-22))
    { kzalloc_zeroed with magic := MAGIC_PMEM, is_userptr := 1, vaddr := 0x1000,
                          size := 4096 } 0 2048 0 1 16 4096 256 2
    ⟨rfl, by decide⟩).1

/-- C8, as stated, fails: on a fresh user-pointer handle, a resolver that stores the base
0x80000000 and the file reference 7 through its out-pointers and then returns -22 makes
`videobuf2_pmem_contig_user_get` return -22 with `phyaddr` 0x80000000 and `file` 7: the
out-pointers are `&mem->phyaddr` and `&mem->file`, and nothing is restored. -/
theorem C8_resolver_stores_then_fails_counterexample :
    ({ kzalloc_zeroed with magic := MAGIC_PMEM, is_userptr := 1, vaddr := 0x1000,
                           size := 4096 } : videobuf2_contig_pmem).phyaddr = 0 ∧
    videobuf2_pmem_contig_user_get
        { env_ok 0 out_example with
          get_pmem_file := fun _ => { rc := -22, out := some out_example } }
        { kzalloc_zeroed with magic := MAGIC_PMEM, is_userptr := 1, vaddr := 0x1000,
                              size := 4096 } 0 2048 0 1
      = { rc := -22,
          mem := { kzalloc_zeroed with magic := MAGIC_PMEM, is_userptr := 1, vaddr := 0x1000,
                                       size := 4096, phyaddr := 0x80000000, file := 7 },
          trace := [Event.get_pmem_file 0x1000] } ∧
    (videobuf2_pmem_contig_user_get
        { env_ok 0 out_example with
          get_pmem_file := fun _ => { rc := -22, out := some out_example } }
        { kzalloc_zeroed with magic := MAGIC_PMEM, is_userptr := 1, vaddr := 0x1000,
                              size := 4096 } 0 2048 0 1).mem.phyaddr ≠ 0 :=
  ⟨rfl, rfl, by decide⟩

/-- C8 (amended): for every unbound handle (`phyaddr` 0), when the resolver fails with a
code e < 0, `videobuf2_pmem_contig_user_get` returns exactly e after one call of the
resolver and makes no store of its own: `y_off`, `cbcr_off`, `buffer_type` and every field
other than `phyaddr` and `file` are unchanged, and `phyaddr` and `file` hold what the
resolver stored through its out-pointers. When the failing resolver stored nothing, the
handle is unchanged and remains unbound (`phyaddr` still 0). -/
theorem C8_user_get_resolver_failure (env : Env) (mem : videobuf2_contig_pmem)
    (y c off : Nat) (path : Int) (e : Int) (hp : mem.phyaddr = 0)
    (hr : (env.get_pmem_file (to_int mem.vaddr)).rc = e) (he : e < 0) :
    (videobuf2_pmem_contig_user_get env mem y c off path).rc = e ∧
    (videobuf2_pmem_contig_user_get env mem y c off path).trace
      = [Event.get_pmem_file (to_int mem.vaddr)] ∧
    (videobuf2_pmem_contig_user_get env mem y c off path).mem
      = { mem with
          phyaddr := (videobuf2_pmem_contig_user_get env mem y c off path).mem.phyaddr,
          file := (videobuf2_pmem_contig_user_get env mem y c off path).mem.file } ∧
    (∀ o : pmem_out, (env.get_pmem_file (to_int mem.vaddr)).out = some o →
      (videobuf2_pmem_contig_user_get env mem y c off path).mem
        = { mem with phyaddr := o.start % WORD, file := o.filp }) ∧
    ((env.get_pmem_file (to_int mem.vaddr)).out = none →
      (videobuf2_pmem_contig_user_get env mem y c off path).mem = mem ∧
      (videobuf2_pmem_contig_user_get env mem y c off path).mem.phyaddr = 0) := by
  have hn : (env.get_pmem_file (to_int mem.vaddr)).rc < 0 := by
    rw [hr]
    exact he
  rw [videobuf2_pmem_contig_user_get_fail env mem y c off path hp hn]
  refine ⟨hr, rfl, ?_, ?_, ?_⟩
  · cases (env.get_pmem_file (to_int mem.vaddr)).out <;> rfl
  · intro o ho
    rw [ho]
    rfl
  · intro ho
    rw [ho]
    exact ⟨rfl, hp⟩

/-- C8 (amended), at work: the resolver fails with -22, storing nothing, on a fresh
user-pointer handle. -/
theorem C8_user_get_resolver_failure_witness :
    (videobuf2_pmem_contig_user_get (env_fail 0 (-22))
        { kzalloc_zeroed with magic := MAGIC_PMEM, is_userptr := 1, vaddr := 0x1000,
                              size := 4096 } 0 2048 0 1).rc = -22 ∧
    (videobuf2_pmem_contig_user_get (env_fail 0 (-22))
        { kzalloc_zeroed with magic := MAGIC_PMEM, is_userptr := 1, vaddr := 0x1000,
                              size := 4096 } 0 2048 0 1).mem
      = { kzalloc_zeroed with magic := MAGIC_PMEM, is_userptr := 1, vaddr := 0x1000,
                              size := 4096 } :=
  have h := C8_user_get_resolver_failure (env_fail 0 (-22))
    { kzalloc_zeroed with magic := MAGIC_PMEM, is_userptr := 1, vaddr := 0x1000,
                          size := 4096 } 0 2048 0 1 (-22) rfl rfl (by decide)
  ⟨h.1, (h.2.2.2.2 rfl).1⟩

/-- C9: for every user-pointer handle (`is_userptr` non-zero) bound by a successful
`videobuf2_pmem_contig_user_get` that stored the file reference F, the first
`videobuf2_pmem_contig_user_put` calls the file release exactly once, on F, and leaves
`phyaddr` 0; a second `videobuf2_pmem_contig_user_put` makes no call and leaves the handle
unchanged. -/
theorem C9_user_put_releases_once (env : Env) (mem : videobuf2_contig_pmem) (y c off : Nat)
    (path : Int) (B kv len F : Nat) (rc : Int) (hu : mem.is_userptr ≠ 0)
    (hp : mem.phyaddr = 0)
    (hr : env.get_pmem_file (to_int mem.vaddr)
      = { rc := rc, out := some { start := B, vstart := kv, len := len, filp := F } })
    (hrc : 0 ≤ rc) :
    (videobuf2_pmem_contig_user_put
      (videobuf2_pmem_contig_user_get env mem y c off path).mem).2
        = [Event.put_pmem_file F] ∧
    released_files (videobuf2_pmem_contig_user_put
      (videobuf2_pmem_contig_user_get env mem y c off path).mem).2 = [F] ∧
    (videobuf2_pmem_contig_user_put
      (videobuf2_pmem_contig_user_get env mem y c off path).mem).1.phyaddr = 0 ∧
    videobuf2_pmem_contig_user_put (videobuf2_pmem_contig_user_put
      (videobuf2_pmem_contig_user_get env mem y c off path).mem).1
        = ((videobuf2_pmem_contig_user_put
            (videobuf2_pmem_contig_user_get env mem y c off path).mem).1, []) := by
  have h := videobuf2_pmem_contig_user_get_resolved env mem y c off path
    { start := B, vstart := kv, len := len, filp := F } rc hp hr hrc
  rw [h]
  have e : (videobuf2_pmem_contig_user_put
      { mem with phyaddr := (B + off) % WORD, file := F, y_off := y, cbcr_off := c,
                 buffer_type := path }).2 = [Event.put_pmem_file F] := by
    show (if mem.is_userptr ≠ 0 then [Event.put_pmem_file F] else []) = _
    rw [if_pos hu]
  refine ⟨e, ?_, rfl, rfl⟩
  rw [e]
  rfl

/-- C9, at work: bind against base 0x80000000 and file reference 7, then release twice. -/
theorem C9_user_put_releases_once_witness :
    released_files (videobuf2_pmem_contig_user_put
      (videobuf2_pmem_contig_user_get (env_ok 0 out_example)
        { kzalloc_zeroed with magic := MAGIC_PMEM, is_userptr := 1, vaddr := 0x1000,
                              size := 4096 } 0 2048 0 1).mem).2 = [7] :=
  (C9_user_put_releases_once (env_ok 0 out_example)
    { kzalloc_zeroed with magic := MAGIC_PMEM, is_userptr := 1, vaddr := 0x1000,
                          size := 4096 } 0 2048 0 1 0x80000000 0 4096 7 0
    (by decide) rfl rfl (by decide)).2.1

/-- C10, as stated, fails: on the handle freshly returned by
`msm_vb2_mem_ops_get_userptr` for address 0x1000 and size 4096, never bound,
`videobuf2_pmem_contig_user_put` does not leave every field unchanged: `size` goes from
4096 to 0 and `is_userptr` from 1 to 0, and it calls the file release on the null file
field. -/
theorem C10_user_put_fresh_handle_counterexample :
    ∃ mem, (msm_vb2_mem_ops_get_userptr (env_ok 0 out_example) 0 0x1000 4096 0).ret
        = .ok mem ∧
      mem.phyaddr = 0 ∧ mem.file = 0 ∧ mem.size = 4096 ∧ mem.is_userptr = 1 ∧
      (videobuf2_pmem_contig_user_put mem).1.size = 0 ∧
      (videobuf2_pmem_contig_user_put mem).1.is_userptr = 0 ∧
      (videobuf2_pmem_contig_user_put mem).2 = [Event.put_pmem_file 0] ∧
      ¬ ((videobuf2_pmem_contig_user_put mem).2 = [] ∧
          (videobuf2_pmem_contig_user_put mem).1 = mem) :=
  ⟨{ kzalloc_zeroed with magic := MAGIC_PMEM, is_userptr := 1, vaddr := 0x1000,
                         size := 4096 },
   rfl, rfl, rfl, rfl, rfl, rfl, rfl, rfl, by decide⟩

/-- C10 (amended): on every handle freshly returned by `msm_vb2_mem_ops_get_userptr` and
never bound (`phyaddr` 0, null `file`), `videobuf2_pmem_contig_user_put` makes one call,
the file release on the handle's null `file` field (no file reference is held), sets
`is_userptr` and `size` to 0 and leaves every other field unchanged, `phyaddr` staying 0;
on the handle it leaves, a further `videobuf2_pmem_contig_user_put` makes no call and
changes no field. -/
theorem C10_user_put_fresh_handle (env : Env) (alloc_ctx vaddr size : Nat) (w : Int)
    (mem : videobuf2_contig_pmem)
    (h : (msm_vb2_mem_ops_get_userptr env alloc_ctx vaddr size w).ret = .ok mem) :
    mem.phyaddr = 0 ∧ mem.file = 0 ∧
    (videobuf2_pmem_contig_user_put mem).2 = [Event.put_pmem_file 0] ∧
    (videobuf2_pmem_contig_user_put mem).1 = { mem with is_userptr := 0, size := 0 } ∧
    videobuf2_pmem_contig_user_put (videobuf2_pmem_contig_user_put mem).1
      = ((videobuf2_pmem_contig_user_put mem).1, []) := by
  rcases msm_vb2_mem_ops_get_userptr_cases env alloc_ctx vaddr size w with
    ⟨-, e⟩ | ⟨-, e⟩
  · rw [e] at h
    cases h
  · rw [e] at h
    injection h with h
    subst h
    exact ⟨rfl, rfl, rfl, rfl, rfl⟩

/-- C10 (amended), at work: the fresh handle for address 0x1000 and size 4096. -/
theorem C10_user_put_fresh_handle_witness :
    (videobuf2_pmem_contig_user_put
      { kzalloc_zeroed with magic := MAGIC_PMEM, is_userptr := 1, vaddr := 0x1000,
                            size := 4096 }).1
      = { kzalloc_zeroed with magic := MAGIC_PMEM, vaddr := 0x1000 } :=
  (C10_user_put_fresh_handle (env_ok 0 out_example) 0 0x1000 4096 0
    { kzalloc_zeroed with magic := MAGIC_PMEM, is_userptr := 1, vaddr := 0x1000,
                          size := 4096 } rfl).2.2.2.1

/-- C11, as stated, fails: on a handle whose `magic` is 0x0733ac65, not `MAGIC_PMEM`,
`msm_vb2_mem_ops_put`, `msm_vb2_mem_ops_put_userptr`, `msm_vb2_mem_ops_vaddr`,
`videobuf2_pmem_contig_mmap_get`, `videobuf2_pmem_contig_user_get` and
`videobuf2_pmem_contig_user_put` all return normally. -/
theorem C11_unchecked_operations_counterexample :
    ({ kzalloc_zeroed with magic := 0x0733ac65, vaddr := 0x1000, size := 4096 } :
      videobuf2_contig_pmem).magic ≠ MAGIC_PMEM ∧
    msm_vb2_mem_ops_put
      { kzalloc_zeroed with magic := 0x0733ac65, vaddr := 0x1000, size := 4096 }
      = [Event.free_contiguous_memory_by_paddr 0, Event.kfree] ∧
    msm_vb2_mem_ops_put_userptr
      { kzalloc_zeroed with magic := 0x0733ac65, vaddr := 0x1000, size := 4096 }
      = [Event.kfree] ∧
    msm_vb2_mem_ops_vaddr
      { kzalloc_zeroed with magic := 0x0733ac65, vaddr := 0x1000, size := 4096 } = 0x1000 ∧
    videobuf2_pmem_contig_mmap_get
      { kzalloc_zeroed with magic := 0x0733ac65, vaddr := 0x1000, size := 4096 } 0 2048 1
      = (0, { kzalloc_zeroed with magic := 0x0733ac65, vaddr := 0x1000, size := 4096,
                                  cbcr_off := 2048, buffer_type := 1 }) ∧
    videobuf2_pmem_contig_user_get (env_ok 0 out_example)
      { kzalloc_zeroed with magic := 0x0733ac65, vaddr := 0x1000, size := 4096 } 0 2048 0 1
      = { rc := 0,
          mem := { kzalloc_zeroed with magic := 0x0733ac65, vaddr := 0x1000, size := 4096,
                                       phyaddr := 0x80000000, file := 7, cbcr_off := 2048,
                                       buffer_type := 1 },
          trace := [Event.get_pmem_file 0x1000] } ∧
    videobuf2_pmem_contig_user_put
      { kzalloc_zeroed with magic := 0x0733ac65, vaddr := 0x1000, size := 4096 }
      = ({ kzalloc_zeroed with magic := 0x0733ac65, vaddr := 0x1000 }, []) :=
  ⟨by decide, rfl, rfl, rfl, rfl, rfl, rfl⟩

/-- C11 (amended): the operations that check the sentinel, `msm_vb2_mem_ops_num_users`,
`msm_vb2_mem_ops_mmap` and `videobuf2_to_pmem_contig`, take the fatal path and never
return normally when the handle's `magic` differs from `MAGIC_PMEM` (0x0733ac64);
`msm_vb2_mem_ops_put`, `msm_vb2_mem_ops_put_userptr`, `msm_vb2_mem_ops_vaddr`,
`videobuf2_pmem_contig_mmap_get`, `videobuf2_pmem_contig_user_get` and
`videobuf2_pmem_contig_user_put` make no check of `magic`: what they return, the calls
they make and the handle they leave, `magic` apart, are the same whatever `magic` holds. -/
theorem C11_magic_checked_operations (env : Env) (buf_priv : Nat)
    (mem : videobuf2_contig_pmem) (vma : vm_area_struct)
    (deref : Nat → videobuf2_contig_pmem) (vb : List Nat) (plane_no : Nat)
    (hm : mem.magic ≠ MAGIC_PMEM) :
    msm_vb2_mem_ops_num_users mem = none ∧
    msm_vb2_mem_ops_mmap env buf_priv mem vma = none ∧
    (deref (vb2_plane_cookie vb plane_no) = mem →
      videobuf2_to_pmem_contig deref vb plane_no = none) ∧
    MAGIC_PMEM = 0x0733ac64 ∧
    (∀ g : Nat,
      msm_vb2_mem_ops_put { mem with magic := g } = msm_vb2_mem_ops_put mem ∧
      msm_vb2_mem_ops_put_userptr { mem with magic := g }
        = msm_vb2_mem_ops_put_userptr mem ∧
      msm_vb2_mem_ops_vaddr { mem with magic := g } = msm_vb2_mem_ops_vaddr mem ∧
      (∀ (y c : Nat) (path : Int),
        videobuf2_pmem_contig_mmap_get { mem with magic := g } y c path
          = ((videobuf2_pmem_contig_mmap_get mem y c path).1,
             { (videobuf2_pmem_contig_mmap_get mem y c path).2 with magic := g })) ∧
      (∀ (e : Env) (y c off : Nat) (path : Int),
        videobuf2_pmem_contig_user_get e { mem with magic := g } y c off path
          = { rc := (videobuf2_pmem_contig_user_get e mem y c off path).rc,
              mem := { (videobuf2_pmem_contig_user_get e mem y c off path).mem with
                       magic := g },
              trace := (videobuf2_pmem_contig_user_get e mem y c off path).trace }) ∧
      videobuf2_pmem_contig_user_put { mem with magic := g }
        = ({ (videobuf2_pmem_contig_user_put mem).1 with magic := g },
           (videobuf2_pmem_contig_user_put mem).2)) := by
  refine ⟨?_, ?_, ?_, rfl, ?_⟩
  · unfold msm_vb2_mem_ops_num_users
    rw [if_pos hm]
  · unfold msm_vb2_mem_ops_mmap
    by_cases hb : buf_priv = 0
    · rw [if_pos hb]
    · rw [if_neg hb, if_pos hm]
  · intro hd
    unfold videobuf2_to_pmem_contig
    dsimp only
    by_cases h0 : vb2_plane_cookie vb plane_no = 0
    · rw [if_pos h0]
    · rw [if_neg h0, hd, if_pos hm]
  · intro g
    exact ⟨rfl, rfl, rfl, fun _ _ _ => rfl,
      fun e y c off path => videobuf2_pmem_contig_user_get_magic e mem y c off path g, rfl⟩

/-- C11 (amended), at work: a handle whose `magic` is 0x0733ac65. -/
theorem C11_magic_checked_operations_witness :
    msm_vb2_mem_ops_num_users
      { kzalloc_zeroed with magic := 0x0733ac65, vaddr := 0x1000, size := 4096 } = none ∧
    msm_vb2_mem_ops_mmap (env_ok 0 out_example) 1
      { kzalloc_zeroed with magic := 0x0733ac65, vaddr := 0x1000, size := 4096 }
      { vm_start := 0x40000000, vm_end := 0x40004000, vm_page_prot := 0, vm_flags := 0,
        vm_ops := none, vm_private_data := 0 } = none ∧
    videobuf2_to_pmem_contig
      (fun _ => { kzalloc_zeroed with magic := 0x0733ac65, vaddr := 0x1000, size := 4096 })
      [1] 0 = none :=
  have h := C11_magic_checked_operations (env_ok 0 out_example) 1
    { kzalloc_zeroed with magic := 0x0733ac65, vaddr := 0x1000, size := 4096 }
    { vm_start := 0x40000000, vm_end := 0x40004000, vm_page_prot := 0, vm_flags := 0,
      vm_ops := none, vm_private_data := 0 }
    (fun _ => { kzalloc_zeroed with magic := 0x0733ac65, vaddr := 0x1000, size := 4096 })
    [1] 0 (by decide)
  ⟨h.1, h.2.1, h.2.2.1 rfl⟩

/-- C12, as stated, fails: the handle `msm_vb2_mem_ops_get_userptr` creates has
`is_userptr` 1, and after a bind and a release_user_memory its `is_userptr` is 0. -/
theorem C12_release_clears_is_userptr_counterexample :
    ∃ mem0 m t,
      (msm_vb2_mem_ops_get_userptr (env_ok 0 out_example) 0 0x1000 4096 0).ret = .ok mem0 ∧
      mem0.is_userptr = 1 ∧
      run_ops [Op.bind (env_ok 0 out_example) 0 2048 0 1, Op.release_user_memory] mem0
        = some (m, t) ∧
      m.is_userptr = 0 ∧ m.is_userptr ≠ mem0.is_userptr :=
  ⟨{ kzalloc_zeroed with magic := MAGIC_PMEM, is_userptr := 1, vaddr := 0x1000,
                         size := 4096 },
   { kzalloc_zeroed with magic := MAGIC_PMEM, vaddr := 0x1000, file := 7, cbcr_off := 2048,
                         buffer_type := 1 },
   [Event.get_pmem_file 0x1000, Event.put_pmem_file 7],
   rfl, rfl, rfl, rfl, by decide⟩

/-- C12 (amended): for every handle, `is_userptr` after any sequence of the public
operations set layout, bind, mmap, open and close equals the value it had before, the one
set at creation (0 by `msm_vb2_mem_ops_alloc`, 1 by `msm_vb2_mem_ops_get_userptr`);
release_user_memory sets it to 0. So a handle from `msm_vb2_mem_ops_alloc` keeps 0 through
every sequence, and a handle from `msm_vb2_mem_ops_get_userptr` keeps 1 until the first
release_user_memory and has 0 after it. -/
theorem C12_is_userptr_until_release (ops : List Op) (mem m : videobuf2_contig_pmem)
    (t : List Event) (h : run_ops ops mem = some (m, t)) :
    ((∀ op ∈ ops, op.is_release = false) → m.is_userptr = mem.is_userptr) ∧
    ((∃ op ∈ ops, op.is_release = true) → m.is_userptr = 0) ∧
    (∀ (env : Env) (alloc_ctx S : Nat),
      (msm_vb2_mem_ops_alloc env alloc_ctx S).ret = .ok mem → m.is_userptr = 0) ∧
    (∀ (env : Env) (alloc_ctx vaddr size : Nat) (w : Int),
      (msm_vb2_mem_ops_get_userptr env alloc_ctx vaddr size w).ret = .ok mem →
      (∀ op ∈ ops, op.is_release = false) → m.is_userptr = 1) := by
  refine ⟨run_ops_is_userptr ops mem m t h, run_ops_released_is_userptr ops mem m t h,
    ?_, ?_⟩
  · intro env alloc_ctx S h0
    have hu : mem.is_userptr = 0 := by
      rcases msm_vb2_mem_ops_alloc_cases env alloc_ctx S with
        ⟨-, e⟩ | ⟨-, -, e⟩ | ⟨-, -, e⟩
      · rw [e] at h0; cases h0
      · rw [e] at h0; cases h0
      · rw [e] at h0
        injection h0 with h0
        subst h0
        rfl
    exact (run_ops_kernel_owned ops mem m t h hu).2
  · intro env alloc_ctx vaddr size w h0 hrel
    have hu : mem.is_userptr = 1 := by
      rcases msm_vb2_mem_ops_get_userptr_cases env alloc_ctx vaddr size w with
        ⟨-, e⟩ | ⟨-, e⟩
      · rw [e] at h0; cases h0
      · rw [e] at h0
        injection h0 with h0
        subst h0
        rfl
    rw [run_ops_is_userptr ops mem m t h hrel, hu]

/-- C12 (amended), at work: a user-pointer handle bound, given its layout and mapped
still has `is_userptr` 1. -/
theorem C12_is_userptr_until_release_witness :
    ({ kzalloc_zeroed with magic := MAGIC_PMEM, is_userptr := 1, vaddr := 0x40000000,
                           size := 4096, phyaddr := 0x80000000, file := 7,
                           cbcr_off := 2048, buffer_type := 1, count := 1 } :
      videobuf2_contig_pmem).is_userptr = 1 :=
  (C12_is_userptr_until_release
    [Op.bind (env_ok 0 out_example) 0 2048 0 1,
     Op.mmap (env_ok 0 out_example) 1
       { vm_start := 0x40000000, vm_end := 0x40004000, vm_page_prot := 0, vm_flags := 0,
         vm_ops := none, vm_private_data := 0 }]
    { kzalloc_zeroed with magic := MAGIC_PMEM, is_userptr := 1, vaddr := 0x1000,
                          size := 4096 }
    { kzalloc_zeroed with magic := MAGIC_PMEM, is_userptr := 1, vaddr := 0x40000000,
                          size := 4096, phyaddr := 0x80000000, file := 7,
                          cbcr_off := 2048, buffer_type := 1, count := 1 }
    [Event.get_pmem_file 0x1000, Event.remap_pfn_range 0x40000000 0xfff80000 4096 0]
    rfl).2.2.2 (env_ok 0 out_example) 0 0x1000 4096 0 rfl (by decide)

/-- C13, as stated, fails: on a freshly created handle (`count` 0), a
`videobuf2_vm_close` issued with no matching open, on a region whose private data points
to the handle, leaves `count` at 4294967295, the largest 32-bit value, which read as a
signed integer is -1. -/
theorem C13_close_without_open_counterexample :
    ∃ mem0 m t,
      (msm_vb2_mem_ops_alloc (env_ok 0x10000000 out_example) 0 8192).ret = .ok mem0 ∧
      mem0.count = 0 ∧
      run_ops [Op.vm_close { vm_start := 0x40000000, vm_end := 0x40004000,
                             vm_page_prot := 0, vm_flags := VM_DONTEXPAND,
                             vm_ops := some vm_operations_struct.videobuf2_vm_ops,
                             vm_private_data := 0xc0001000 }] mem0 = some (m, t) ∧
      m.count = 4294967295 ∧ to_int m.count = -1 :=
  ⟨{ kzalloc_zeroed with magic := MAGIC_PMEM, size := 8192, phyaddr := 0x10000000 },
   { kzalloc_zeroed with magic := MAGIC_PMEM, size := 8192, phyaddr := 0x10000000,
                         count := 4294967295 },
   [], rfl, rfl, rfl, rfl, by decide⟩

/-- C13 (amended): for every handle and every sequence of mmap, `videobuf2_vm_open` and
`videobuf2_vm_close` calls starting from a freshly created handle (`count` 0) in which
every close is matched, that is, the running number of successful mmaps plus opens minus
closes never goes below zero (and stays below 2^32), `count` equals that number: it never
goes below zero and does not wrap around. A `videobuf2_vm_close` issued at `count` 0, with
no matching open, wraps `count` around to 2^32 - 1; issued at a `count` above 0 it takes
one off. In every case `count` stays an unsigned 32-bit value. -/
theorem C13_count_is_unsigned_32_bit (ops : List Op) (mem m : videobuf2_contig_pmem)
    (t : List Event) (h : run_ops ops mem = some (m, t))
    (hmap : ∀ op ∈ ops, op.is_mapping = true) (hc : mem.count = 0) :
    ((∀ k, k ≤ ops.length →
        0 ≤ net_mappings (ops.take k) mem ∧ net_mappings (ops.take k) mem < (WORD : Int)) →
      (m.count : Int) = net_mappings ops mem) ∧
    m.count < WORD ∧
    (∀ (vma : vm_area_struct) (x : videobuf2_contig_pmem), x.count = 0 →
      (videobuf2_vm_close vma x).count = WORD - 1) ∧
    (∀ (vma : vm_area_struct) (x : videobuf2_contig_pmem), 0 < x.count →
      (videobuf2_vm_close vma x).count = x.count - 1) := by
  refine ⟨?_, ?_, ?_, ?_⟩
  · intro hbal
    have hrun := run_ops_count ops mem m t h hmap (fun k hk => by
      have hk2 := hbal k hk
      rw [hc]
      constructor <;> omega)
    rw [hrun, hc]
    omega
  · refine run_ops_count_lt ops mem m t h hmap ?_
    rw [hc]
    decide
  · intro vma x hx
    show (if x.count = 0 then WORD - 1 else x.count - 1) = WORD - 1
    rw [if_pos hx]
  · intro vma x hx
    show (if x.count = 0 then WORD - 1 else x.count - 1) = x.count - 1
    rw [if_neg (Nat.pos_iff_ne_zero.mp hx)]

/-- C13 (amended), at work: map, open, open, close on a fresh handle: two mappings stay
open. -/
theorem C13_count_is_unsigned_32_bit_witness :
    (({ kzalloc_zeroed with magic := MAGIC_PMEM, size := 8192, phyaddr := 0x10000000,
                            vaddr := 0x40000000, count := 2 } :
      videobuf2_contig_pmem).count : Int)
      = net_mappings
          [Op.mmap (env_ok 0x10000000 out_example) 0xc0001000
             { vm_start := 0x40000000, vm_end := 0x40004000, vm_page_prot := 0,
               vm_flags := 0, vm_ops := none, vm_private_data := 0 },
           Op.vm_open { vm_start := 0x40000000, vm_end := 0x40004000, vm_page_prot := 0,
                        vm_flags := VM_DONTEXPAND,
                        vm_ops := some vm_operations_struct.videobuf2_vm_ops,
                        vm_private_data := 0xc0001000 },
           Op.vm_open { vm_start := 0x40000000, vm_end := 0x40004000, vm_page_prot := 0,
                        vm_flags := VM_DONTEXPAND,
                        vm_ops := some vm_operations_struct.videobuf2_vm_ops,
                        vm_private_data := 0xc0001000 },
           Op.vm_close { vm_start := 0x40000000, vm_end := 0x40004000, vm_page_prot := 0,
                         vm_flags := VM_DONTEXPAND,
                         vm_ops := some vm_operations_struct.videobuf2_vm_ops,
                         vm_private_data := 0xc0001000 }]
          { kzalloc_zeroed with magic := MAGIC_PMEM, size := 8192, phyaddr := 0x10000000 } :=
  (C13_count_is_unsigned_32_bit
    [Op.mmap (env_ok 0x10000000 out_example) 0xc0001000
       { vm_start := 0x40000000, vm_end := 0x40004000, vm_page_prot := 0,
         vm_flags := 0, vm_ops := none, vm_private_data := 0 },
     Op.vm_open { vm_start := 0x40000000, vm_end := 0x40004000, vm_page_prot := 0,
                  vm_flags := VM_DONTEXPAND,
                  vm_ops := some vm_operations_struct.videobuf2_vm_ops,
                  vm_private_data := 0xc0001000 },
     Op.vm_open { vm_start := 0x40000000, vm_end := 0x40004000, vm_page_prot := 0,
                  vm_flags := VM_DONTEXPAND,
                  vm_ops := some vm_operations_struct.videobuf2_vm_ops,
                  vm_private_data := 0xc0001000 },
     Op.vm_close { vm_start := 0x40000000, vm_end := 0x40004000, vm_page_prot := 0,
                   vm_flags := VM_DONTEXPAND,
                   vm_ops := some vm_operations_struct.videobuf2_vm_ops,
                   vm_private_data := 0xc0001000 }]
    { kzalloc_zeroed with magic := MAGIC_PMEM, size := 8192, phyaddr := 0x10000000 }
    { kzalloc_zeroed with magic := MAGIC_PMEM, size := 8192, phyaddr := 0x10000000,
                          vaddr := 0x40000000, count := 2 }
    [Event.remap_pfn_range 0x40000000 0x10000 8192 0]
    rfl (by decide) rfl).1 (by decide)

/-- C14: for every buffer plane whose cookie is a non-null pointer to a handle with valid
`magic`, `videobuf2_to_pmem_contig` returns that handle's `phyaddr`;
`msm_vb2_mem_ops_cookie` is the identity on the handle pointer, so for a handle just
returned by a successful `msm_vb2_mem_ops_alloc` the accessor returns exactly the address
the physical allocator returned; on a null cookie or a `magic` mismatch it takes the fatal
path. -/
theorem C14_to_pmem_contig_phyaddr (deref : Nat → videobuf2_contig_pmem) (vb : List Nat)
    (plane_no : Nat) :
    (∀ buf_priv : Nat, msm_vb2_mem_ops_cookie buf_priv = buf_priv) ∧
    (vb2_plane_cookie vb plane_no ≠ 0 →
      (deref (vb2_plane_cookie vb plane_no)).magic = MAGIC_PMEM →
      videobuf2_to_pmem_contig deref vb plane_no
        = some (deref (vb2_plane_cookie vb plane_no)).phyaddr) ∧
    (∀ (env : Env) (alloc_ctx S : Nat) (mem : videobuf2_contig_pmem),
      (msm_vb2_mem_ops_alloc env alloc_ctx S).ret = .ok mem →
      vb2_plane_cookie vb plane_no ≠ 0 → deref (vb2_plane_cookie vb plane_no) = mem →
      videobuf2_to_pmem_contig deref vb plane_no
        = some (env.allocate_contiguous_ebi_nomap (PAGE_ALIGN S) SZ_4K % WORD)) ∧
    (vb2_plane_cookie vb plane_no = 0 → videobuf2_to_pmem_contig deref vb plane_no = none) ∧
    ((deref (vb2_plane_cookie vb plane_no)).magic ≠ MAGIC_PMEM →
      videobuf2_to_pmem_contig deref vb plane_no = none) := by
  have hok : vb2_plane_cookie vb plane_no ≠ 0 →
      (deref (vb2_plane_cookie vb plane_no)).magic = MAGIC_PMEM →
      videobuf2_to_pmem_contig deref vb plane_no
        = some (deref (vb2_plane_cookie vb plane_no)).phyaddr := by
    intro h0 hm
    unfold videobuf2_to_pmem_contig
    dsimp only
    rw [if_neg h0, if_neg (not_not.mpr hm)]
  refine ⟨fun _ => rfl, hok, ?_, ?_, ?_⟩
  · intro env alloc_ctx S mem h h0 hd
    rcases msm_vb2_mem_ops_alloc_cases env alloc_ctx S with ⟨-, e⟩ | ⟨-, -, e⟩ | ⟨-, -, e⟩
    · rw [e] at h; cases h
    · rw [e] at h; cases h
    · rw [e] at h
      injection h with h
      subst h
      rw [hok h0 (by rw [hd]), hd]
  · intro h0
    unfold videobuf2_to_pmem_contig
    dsimp only
    rw [if_pos h0]
  · intro hm
    unfold videobuf2_to_pmem_contig
    dsimp only
    by_cases h0 : vb2_plane_cookie vb plane_no = 0
    · rw [if_pos h0]
    · rw [if_neg h0, if_pos hm]

/-- C14, at work: plane 1 of a two-plane buffer holds the handle allocated at
0x10000000. -/
theorem C14_to_pmem_contig_phyaddr_witness :
    videobuf2_to_pmem_contig
      (fun _ => { kzalloc_zeroed with magic := MAGIC_PMEM, size := 8192,
                                      phyaddr := 0x10000000 })
      [0xc0001000, 0xc0002000] 1 = some 0x10000000 :=
  (C14_to_pmem_contig_phyaddr
    (fun _ => { kzalloc_zeroed with magic := MAGIC_PMEM, size := 8192,
                                    phyaddr := 0x10000000 })
    [0xc0001000, 0xc0002000] 1).2.2.1 (env_ok 0x10000000 out_example) 0 8192
    { kzalloc_zeroed with magic := MAGIC_PMEM, size := 8192, phyaddr := 0x10000000 }
    rfl (by decide) rfl

/-- C15: for every context, address, size and write flag, a successful
`msm_vb2_mem_ops_get_userptr` (one that finds handle storage) returns a handle with
`magic` equal to `MAGIC_PMEM`, `is_userptr` 1, `vaddr` the given address, `size` the given
size exactly (not page-rounded), `alloc_ctx` the given context, `phyaddr` 0 and `count` 0,
every other field zero, and calls neither the physical allocator nor the resolver. -/
theorem C15_get_userptr_handle (env : Env) (alloc_ctx vaddr size : Nat) (w : Int)
    (hk : env.kzalloc = true) :
    ∃ mem, (msm_vb2_mem_ops_get_userptr env alloc_ctx vaddr size w).ret = .ok mem ∧
      mem.magic = MAGIC_PMEM ∧ mem.is_userptr = 1 ∧ mem.vaddr = vaddr ∧ mem.size = size ∧
      mem.alloc_ctx = alloc_ctx ∧ mem.phyaddr = 0 ∧ mem.count = 0 ∧
      mem = { kzalloc_zeroed with magic := MAGIC_PMEM, is_userptr := 1, vaddr := vaddr,
                                  size := size, alloc_ctx := alloc_ctx } ∧
      allocate_calls (msm_vb2_mem_ops_get_userptr env alloc_ctx vaddr size w).trace = [] ∧
      free_calls (msm_vb2_mem_ops_get_userptr env alloc_ctx vaddr size w).trace = [] ∧
      resolver_calls (msm_vb2_mem_ops_get_userptr env alloc_ctx vaddr size w).trace
        = [] := by
  rcases msm_vb2_mem_ops_get_userptr_cases env alloc_ctx vaddr size w with
    ⟨hf, -⟩ | ⟨-, e⟩
  · rw [hk] at hf
    cases hf
  · rw [e]
    exact ⟨_, rfl, rfl, rfl, rfl, rfl, rfl, rfl, rfl, rfl, rfl, rfl, rfl⟩

/-- C15, at work: address 0x1000 and size 4100, which is not a multiple of the page
size. -/
theorem C15_get_userptr_handle_witness :
    ∃ mem, (msm_vb2_mem_ops_get_userptr (env_ok 0 out_example) 5 0x1000 4100 1).ret
        = .ok mem ∧
      mem.magic = MAGIC_PMEM ∧ mem.is_userptr = 1 ∧ mem.vaddr = 0x1000 ∧ mem.size = 4100 ∧
      mem.alloc_ctx = 5 ∧ mem.phyaddr = 0 ∧ mem.count = 0 := by
  obtain ⟨mem, h1, h2, h3, h4, h5, h6, h7, h8, -⟩ :=
    C15_get_userptr_handle (env_ok 0 out_example) 5 0x1000 4100 1 rfl
  exact ⟨mem, h1, h2, h3, h4, h5, h6, h7, h8⟩

/-- C16: for every handle and every (y_offset, cbcr_offset, path),
`videobuf2_pmem_contig_mmap_get` returns 0, sets `y_off`, `cbcr_off` and `buffer_type` to
the given values whatever the handle's state, and leaves every other field (`magic`,
`phyaddr`, `vaddr`, `size`, `is_userptr`, `file`, `count`, `alloc_ctx`) unchanged; as an
operation on the handle it makes no allocator, resolver or mapping call. -/
theorem C16_mmap_get_sets_layout (mem : videobuf2_contig_pmem) (y c : Nat) (path : Int) :
    (videobuf2_pmem_contig_mmap_get mem y c path).1 = 0 ∧
    (videobuf2_pmem_contig_mmap_get mem y c path).2.y_off = y ∧
    (videobuf2_pmem_contig_mmap_get mem y c path).2.cbcr_off = c ∧
    (videobuf2_pmem_contig_mmap_get mem y c path).2.buffer_type = path ∧
    (videobuf2_pmem_contig_mmap_get mem y c path).2.magic = mem.magic ∧
    (videobuf2_pmem_contig_mmap_get mem y c path).2.phyaddr = mem.phyaddr ∧
    (videobuf2_pmem_contig_mmap_get mem y c path).2.vaddr = mem.vaddr ∧
    (videobuf2_pmem_contig_mmap_get mem y c path).2.size = mem.size ∧
    (videobuf2_pmem_contig_mmap_get mem y c path).2.is_userptr = mem.is_userptr ∧
    (videobuf2_pmem_contig_mmap_get mem y c path).2.file = mem.file ∧
    (videobuf2_pmem_contig_mmap_get mem y c path).2.count = mem.count ∧
    (videobuf2_pmem_contig_mmap_get mem y c path).2.alloc_ctx = mem.alloc_ctx ∧
    apply_op mem (Op.set_layout y c path)
      = some ({ mem with y_off := y, cbcr_off := c, buffer_type := path }, []) :=
  ⟨rfl, rfl, rfl, rfl, rfl, rfl, rfl, rfl, rfl, rfl, rfl, rfl, rfl⟩

/-- C17: mapping touches only the mapping count and the recorded virtual address. For
every valid handle, a successful `msm_vb2_mem_ops_mmap` changes only `vaddr` (to the
region's start) and `count` (one more), and `videobuf2_vm_open` / `videobuf2_vm_close`
change only `count` (one more / one less, in unsigned 32-bit arithmetic); none of them
changes `magic`, `phyaddr`, `size`, `is_userptr`, `file` or the layout metadata, and none
calls the physical allocator's free or the file release. -/
theorem C17_mapping_frame (env : Env) (buf_priv : Nat) (mem : videobuf2_contig_pmem)
    (vma : vm_area_struct) (r : mmap_result)
    (h : msm_vb2_mem_ops_mmap env buf_priv mem vma = some r) (hrc : r.rc = 0) :
    r.mem = { mem with vaddr := vma.vm_start, count := (mem.count + 1) % WORD } ∧
    (mem.count + 1 < WORD → r.mem.count = mem.count + 1) ∧
    free_calls r.trace = [] ∧ released_files r.trace = [] ∧
    (∀ (v : vm_area_struct) (x : videobuf2_contig_pmem),
      apply_op x (Op.vm_open v) = some ({ x with count := (x.count + 1) % WORD }, []) ∧
      (x.count + 1 < WORD → (videobuf2_vm_open v x).count = x.count + 1)) ∧
    (∀ (v : vm_area_struct) (x : videobuf2_contig_pmem),
      apply_op x (Op.vm_close v)
        = some ({ x with count := if x.count = 0 then WORD - 1 else x.count - 1 }, []) ∧
      (0 < x.count → (videobuf2_vm_close v x).count + 1 = x.count)) := by
  obtain ⟨-, -, ht, hcase⟩ := msm_vb2_mem_ops_mmap_cases env buf_priv mem vma r h
  have hmem : r.mem
      = { mem with vaddr := vma.vm_start, count := (mem.count + 1) % WORD } := by
    rcases hcase with ⟨-, e, -⟩ | ⟨-, -, e⟩
    · rw [e] at hrc
      exact absurd hrc (by decide)
    · exact e
  refine ⟨hmem, ?_, ?_, ?_, ?_, ?_⟩
  · intro hlt
    rw [hmem]
    exact Nat.mod_eq_of_lt hlt
  · rw [ht]
    rfl
  · rw [ht]
    rfl
  · intro v x
    exact ⟨rfl, fun hlt => Nat.mod_eq_of_lt hlt⟩
  · intro v x
    refine ⟨rfl, fun hx => ?_⟩
    show (if x.count = 0 then WORD - 1 else x.count - 1) + 1 = x.count
    rw [if_neg (Nat.pos_iff_ne_zero.mp hx)]
    exact Nat.sub_add_cancel hx

/-- C17, at work: a bound, laid-out handle mapped at 0x40000000. -/
theorem C17_mapping_frame_witness :
    ({ kzalloc_zeroed with magic := MAGIC_PMEM, size := 8192, phyaddr := 0x10000000,
                           cbcr_off := 2048, file := 7, vaddr := 0x40000000, count := 3 } :
      videobuf2_contig_pmem)
      = { ({ kzalloc_zeroed with magic := MAGIC_PMEM, size := 8192, phyaddr := 0x10000000,
                                 cbcr_off := 2048, file := 7, vaddr := 0x1000,
                                 count := 2 } : videobuf2_contig_pmem) with
          vaddr := 0x40000000, count := (2 + 1) % WORD } :=
  (C17_mapping_frame (env_ok 0x10000000 out_example) 1
    { kzalloc_zeroed with magic := MAGIC_PMEM, size := 8192, phyaddr := 0x10000000,
                          cbcr_off := 2048, file := 7, vaddr := 0x1000, count := 2 }
    { vm_start := 0x40000000, vm_end := 0x40004000, vm_page_prot := 0, vm_flags := 0,
      vm_ops := none, vm_private_data := 0 }
    { rc := 0,
      mem := { kzalloc_zeroed with magic := MAGIC_PMEM, size := 8192,
                                   phyaddr := 0x10000000, cbcr_off := 2048, file := 7,
                                   vaddr := 0x40000000, count := 3 },
      vma := { vm_start := 0x40000000, vm_end := 0x40004000, vm_page_prot := 0,
               vm_flags := VM_DONTEXPAND,
               vm_ops := some vm_operations_struct.videobuf2_vm_ops, vm_private_data := 1 },
      trace := [Event.remap_pfn_range 0x40000000 0x10000 8192 0] }
    rfl rfl).1

/-- C18, as stated, fails: when no handle storage is found, `msm_vb2_mem_ops_alloc`
reports failure although the allocator, which would return 0x10000000, is not called and
that value is not in the error-pointer range. -/
theorem C18_storage_failure_counterexample :
    (msm_vb2_mem_ops_alloc { env_ok 0x10000000 out_example with kzalloc := false } 0 8192).ret
      = .error (-ENOMEM) ∧
    allocate_calls
      (msm_vb2_mem_ops_alloc { env_ok 0x10000000 out_example with kzalloc := false }
        0 8192).trace = [] ∧
    IS_ERR (({ env_ok 0x10000000 out_example with kzalloc := false } :
      Env).allocate_contiguous_ebi_nomap (PAGE_ALIGN 8192) SZ_4K % WORD) = false ∧
    ¬ ((msm_vb2_mem_ops_alloc { env_ok 0x10000000 out_example with kzalloc := false }
          0 8192).ret = .error (-ENOMEM) ↔
        IS_ERR (({ env_ok 0x10000000 out_example with kzalloc := false } :
          Env).allocate_contiguous_ebi_nomap (PAGE_ALIGN 8192) SZ_4K % WORD) = true) := by
  refine ⟨rfl, rfl, by decide, ?_⟩
  intro h
  have h2 := h.mp rfl
  revert h2
  decide

/-- C18 (amended): `msm_vb2_mem_ops_alloc` reports failure, with `-ENOMEM`, exactly when
no handle storage is found (the allocator is then not called) or the allocator's return
value r, truncated to 32 bits and read as a pointer, lies in the error-pointer range, the
top 4095 values, that is -4095..-1 as an `int`; when storage is found, for every other r,
0 included, it returns a handle carrying r as `phyaddr`, after one call of the
allocator. -/
theorem C18_alloc_fails_iff_error_pointer (env : Env) (alloc_ctx S : Nat) :
    ((msm_vb2_mem_ops_alloc env alloc_ctx S).ret = .error (-ENOMEM) ↔
      (env.kzalloc = false ∨
        IS_ERR (env.allocate_contiguous_ebi_nomap (PAGE_ALIGN S) SZ_4K % WORD) = true)) ∧
    ((∃ e, (msm_vb2_mem_ops_alloc env alloc_ctx S).ret = .error e) ↔
      (msm_vb2_mem_ops_alloc env alloc_ctx S).ret = .error (-ENOMEM)) ∧
    (env.kzalloc = false →
      allocate_calls (msm_vb2_mem_ops_alloc env alloc_ctx S).trace = []) ∧
    (env.kzalloc = true →
      allocate_calls (msm_vb2_mem_ops_alloc env alloc_ctx S).trace = [PAGE_ALIGN S] ∧
      (IS_ERR (env.allocate_contiguous_ebi_nomap (PAGE_ALIGN S) SZ_4K % WORD) = false →
        ∃ mem, (msm_vb2_mem_ops_alloc env alloc_ctx S).ret = .ok mem ∧
          mem.phyaddr = env.allocate_contiguous_ebi_nomap (PAGE_ALIGN S) SZ_4K % WORD)) ∧
    (∀ r : Nat, r < WORD →
      ((IS_ERR r = true ↔ WORD - 4095 ≤ r) ∧
       (IS_ERR r = true ↔ (-4095 ≤ to_int r ∧ to_int r ≤ -1)))) ∧
    IS_ERR 0 = false := by
  have hW : WORD = 4294967296 := by decide
  refine ⟨?_, ?_, ?_, ?_, ?_, by decide⟩
  · rcases msm_vb2_mem_ops_alloc_cases env alloc_ctx S with
      ⟨hk, e⟩ | ⟨hk, he, e⟩ | ⟨hk, he, e⟩
    · rw [e]
      exact ⟨fun _ => Or.inl hk, fun _ => rfl⟩
    · rw [e]
      exact ⟨fun _ => Or.inr he, fun _ => rfl⟩
    · rw [e]
      constructor
      · intro h
        cases h
      · rintro (h | h)
        · rw [hk] at h
          cases h
        · rw [he] at h
          cases h
  · rcases msm_vb2_mem_ops_alloc_cases env alloc_ctx S with
      ⟨-, e⟩ | ⟨-, -, e⟩ | ⟨-, -, e⟩
    · rw [e]
      exact ⟨fun _ => rfl, fun _ => ⟨_, rfl⟩⟩
    · rw [e]
      exact ⟨fun _ => rfl, fun _ => ⟨_, rfl⟩⟩
    · rw [e]
      constructor
      · rintro ⟨x, hx⟩
        cases hx
      · intro h
        cases h
  · intro hk
    rcases msm_vb2_mem_ops_alloc_cases env alloc_ctx S with
      ⟨-, e⟩ | ⟨hk2, -, -⟩ | ⟨hk2, -, -⟩
    · rw [e]
      rfl
    · rw [hk] at hk2
      cases hk2
    · rw [hk] at hk2
      cases hk2
  · intro hk
    rcases msm_vb2_mem_ops_alloc_cases env alloc_ctx S with
      ⟨hk2, -⟩ | ⟨-, he, e⟩ | ⟨-, -, e⟩
    · rw [hk] at hk2
      cases hk2
    · rw [e]
      refine ⟨rfl, fun hf => ?_⟩
      rw [he] at hf
      cases hf
    · rw [e]
      exact ⟨rfl, fun _ => ⟨_, rfl, rfl⟩⟩
  · intro r hlt
    rw [hW] at hlt
    have e1 : IS_ERR r = true ↔ WORD - 4095 ≤ r := by
      unfold IS_ERR MAX_ERRNO
      exact decide_eq_true_iff
    have e2 : WORD - 4095 ≤ r ↔ (-4095 ≤ to_int r ∧ to_int r ≤ -1) := by
      unfold to_int
      rw [hW]
      by_cases hh : r < 4294967296 / 2
      · rw [if_pos hh]
        omega
      · rw [if_neg hh]
        push_cast
        omega
    exact ⟨e1, e1.trans e2⟩

/-- C18 (amended), at work: an allocator that returns 0 gives a handle with `phyaddr`
0. -/
theorem C18_alloc_fails_iff_error_pointer_witness :
    ∃ mem, (msm_vb2_mem_ops_alloc (env_ok 0 out_example) 0 4096).ret = .ok mem ∧
      mem.phyaddr = 0 :=
  ((C18_alloc_fails_iff_error_pointer (env_ok 0 out_example) 0 4096).2.2.2.1 rfl).2
    (by decide)

/-- C19, as stated, fails: over two bind/release cycles on a fresh user-pointer handle,
with a resolver that hands out file reference 7 in the first cycle and 9 in the second,
the resolver is called twice but the file release only once, on 7: the second release
does not release the file reference the bind before it obtained. -/
theorem C19_second_cycle_counterexample :
    ∃ m t,
      run_ops
        [Op.bind (env_ok 0 out_example) 0 2048 0 1, Op.release_user_memory,
         Op.bind (env_ok 0 { start := 0x90000000, vstart := 0, len := 4096, filp := 9 })
           0 2048 0 1,
         Op.release_user_memory]
        { kzalloc_zeroed with magic := MAGIC_PMEM, is_userptr := 1, vaddr := 0x1000,
                              size := 4096 } = some (m, t) ∧
      resolver_calls t = [0x1000, 0x1000] ∧ m.file = 9 ∧
      released_files t = [7] ∧ (released_files t).length ≠ 2 :=
  ⟨{ kzalloc_zeroed with magic := MAGIC_PMEM, vaddr := 0x1000, file := 9, cbcr_off := 2048,
                         buffer_type := 1 },
   [Event.get_pmem_file 0x1000, Event.put_pmem_file 7, Event.get_pmem_file 0x1000],
   rfl, rfl, rfl, rfl, by decide⟩

/-- C19 (amended): for every user-pointer handle (`is_userptr` non-zero, unbound), the
`videobuf2_pmem_contig_user_put` that follows the first successful
`videobuf2_pmem_contig_user_get` releases exactly the file reference F that bind
obtained and clears `is_userptr`; whatever operations follow on the handle, further
bind/release cycles included, the file release is not called again. So after n full
cycles, n ≥ 1, the file release has been called once, on the first file reference. -/
theorem C19_release_once_over_cycles (env : Env) (mem m : videobuf2_contig_pmem)
    (y c off : Nat) (path : Int) (B kv len F : Nat) (rc : Int) (ops : List Op)
    (t : List Event) (hu : mem.is_userptr ≠ 0) (hp : mem.phyaddr = 0)
    (hr : env.get_pmem_file (to_int mem.vaddr)
      = { rc := rc, out := some { start := B, vstart := kv, len := len, filp := F } })
    (hrc : 0 ≤ rc)
    (h : run_ops (Op.bind env y c off path :: Op.release_user_memory :: ops) mem
      = some (m, t)) :
    released_files t = [F] ∧ resolver_calls (t.take 1) = [to_int mem.vaddr] ∧
    m.is_userptr = 0 := by
  obtain ⟨m1, t1, t1r, h1, h1r, ht1⟩ := run_ops_cons _ _ mem m t h
  obtain ⟨m2, t2, t3, h2, h3, ht2⟩ := run_ops_cons _ _ m1 m t1r h1r
  have hb := videobuf2_pmem_contig_user_get_resolved env mem y c off path
    { start := B, vstart := kv, len := len, filp := F } rc hp hr hrc
  have e1 : apply_op mem (Op.bind env y c off path)
      = some ((videobuf2_pmem_contig_user_get env mem y c off path).mem,
          (videobuf2_pmem_contig_user_get env mem y c off path).trace) := rfl
  rw [e1, hb] at h1
  injection h1 with h1
  injection h1 with hm1 hte1
  subst hm1 hte1
  have e2 : apply_op
      { mem with phyaddr := (B + off) % WORD, file := F, y_off := y, cbcr_off := c,
                 buffer_type := path } Op.release_user_memory
      = some ({ mem with phyaddr := 0, file := F, y_off := y, cbcr_off := c,
                         buffer_type := path, is_userptr := 0, size := 0 },
          if mem.is_userptr ≠ 0 then [Event.put_pmem_file F] else []) := rfl
  rw [e2, if_pos hu] at h2
  injection h2 with h2
  injection h2 with hm2 hte2
  subst hm2 hte2
  have hrest := run_ops_released_files ops _ m t3 h3 rfl
  have hown := run_ops_kernel_owned ops _ m t3 h3 rfl
  refine ⟨?_, ?_, hown.2⟩
  · rw [ht1, ht2, released_files_append, released_files_append, hrest]
    rfl
  · rw [ht1]
    rfl

/-- C19 (amended), at work: two bind/release cycles, file references 7 then 9. -/
theorem C19_release_once_over_cycles_witness :
    released_files
      [Event.get_pmem_file 0x1000, Event.put_pmem_file 7, Event.get_pmem_file 0x1000]
      = [7] :=
  (C19_release_once_over_cycles (env_ok 0 out_example)
    { kzalloc_zeroed with magic := MAGIC_PMEM, is_userptr := 1, vaddr := 0x1000,
                          size := 4096 }
    { kzalloc_zeroed with magic := MAGIC_PMEM, vaddr := 0x1000, file := 9, cbcr_off := 2048,
                          buffer_type := 1 }
    0 2048 0 1 0x80000000 0 4096 7 0
    [Op.bind (env_ok 0 { start := 0x90000000, vstart := 0, len := 4096, filp := 9 })
       0 2048 0 1,
     Op.release_user_memory]
    [Event.get_pmem_file 0x1000, Event.put_pmem_file 7, Event.get_pmem_file 0x1000]
    (by decide) rfl rfl (by decide) rfl).1

end Vb2Msm
